import Mathlib

set_option maxHeartbeats 1000000

/-!
Shallow embedding of the protocol runner IPC client
(src/tezos/protocol-ipc-client/src/lib.rs).

Modelling conventions:
* Message payload schemas live in external crates (tezos_protocol_ipc_messages,
  tezos_api, crypto) and are treated as opaque by the specification, so payload
  values are modelled as strings.
* Durations are modelled in seconds (the source builds every per-command
  timeout with Duration::from_secs); the socket waiter is modelled in
  milliseconds because its poll interval is 100 ms.
* Fallible accessors of the external environment type (genesis_additional_data,
  main_chain_id, genesis_protocol) are modelled as stored results; the Debug
  rendering of their error value is modelled as the error string itself.
* The IPC transport is modelled as a scripted channel: outgoing messages are
  recorded in order, and each receive consumes the next scripted reply.
  Failures are injected on the receive side; an exhausted script behaves as a
  closed channel, which the source surfaces as an IpcError.
-/

/-- Opaque payload blob: the serialization format of individual message
payloads is out of scope, so payload values are modelled as strings. -/
abbrev Payload := String

/-- Log severity levels of the slog crate (type of the log_level configuration
field). The function as_str mirrors slog Level::as_str, which yields the full
uppercase level name. -/
inductive Level
  | Critical
  | Error
  | Warning
  | Info
  | Debug
  | Trace
deriving DecidableEq, Repr

/-- Mirrors slog Level::as_str (full uppercase names from LOG_LEVEL_NAMES). -/
def Level.as_str : Level → String
  | .Critical => "CRITICAL"
  | .Error => "ERROR"
  | .Warning => "WARNING"
  | .Info => "INFO"
  | .Debug => "DEBUG"
  | .Trace => "TRACE"

/-- Lowercase rendering of a string (to_lowercase of the Rust standard
library, restricted to the ASCII level names used here); defined by mapping
Char.toLower over the characters so that the kernel can evaluate it. -/
def to_lowercase (s : String) : String := ⟨s.data.map Char.toLower⟩

/-- Handle of a spawned child process (tokio::process::Child), identified by
its pid; the handle itself is otherwise opaque. -/
structure Child where
  pid : Nat
deriving DecidableEq, Repr

/-- Transport-level error of the async_ipc crate, opaque except for a
human-readable message. -/
structure IpcError where
  message : String
deriving DecidableEq, Repr

instance {ε α : Type} [DecidableEq ε] [DecidableEq α] : DecidableEq (Except ε α) := fun x y =>
  match x, y with
  | .ok a, .ok b =>
      if h : a = b then .isTrue (by rw [h]) else .isFalse (by simp [h])
  | .ok _, .error _ => .isFalse (by simp)
  | .error _, .ok _ => .isFalse (by simp)
  | .error a, .error b =>
      if h : a = b then .isTrue (by rw [h]) else .isFalse (by simp [h])

/-- Additional genesis data derived from the environment
(genesis_additional_data in tezos_api). -/
structure GenesisAdditionalData where
  max_operations_ttl : Nat
deriving DecidableEq, Repr

/-- Environment descriptor (TezosEnvironmentConfiguration of tezos_api).
Only the members the client uses are modelled; the fallible derivations are
modelled as stored results. -/
structure TezosEnvironmentConfiguration where
  genesis : Payload
  protocol_overrides : Payload
  genesis_additional_data : Except String GenesisAdditionalData
  main_chain_id : Except String Payload
  genesis_protocol : Except String Payload
deriving DecidableEq, Repr

/-- Storage settings (TezosContextStorageConfiguration of tezos_context_api).
The client only consults the readonly IPC socket path. -/
structure TezosContextStorageConfiguration where
  ipc_socket_path : Option String
deriving DecidableEq, Repr

/-- Mirrors TezosContextStorageConfiguration::get_ipc_socket_path. -/
def TezosContextStorageConfiguration.get_ipc_socket_path
    (self : TezosContextStorageConfiguration) : Option String :=
  self.ipc_socket_path

/-- Protocol runner configuration (ProtocolRunnerConfiguration in lib.rs). -/
structure ProtocolRunnerConfiguration where
  runtime_configuration : Payload
  environment : TezosEnvironmentConfiguration
  enable_testchain : Bool
  storage : TezosContextStorageConfiguration
  executable_path : String
  log_level : Level
deriving DecidableEq, Repr

/-- Parameters of the InitProtocolContextCall message
(InitProtocolContextParams). -/
structure InitProtocolContextParams where
  storage : TezosContextStorageConfiguration
  genesis : Payload
  genesis_max_operations_ttl : Nat
  protocol_overrides : Payload
  commit_genesis : Bool
  enable_testchain : Bool
  readonly : Bool
  patch_context : Option Payload
  context_stats_db_path : Option String
deriving DecidableEq, Repr

/-- Parameters of the GenesisResultDataCall message (GenesisResultDataParams). -/
structure GenesisResultDataParams where
  genesis_context_hash : Payload
  chain_id : Payload
  genesis_protocol_hash : Payload
  genesis_max_operations_ttl : Nat
deriving DecidableEq, Repr

/-- Parameters of the JsonEncodeApplyBlockResultMetadata message. -/
structure JsonEncodeApplyBlockResultMetadataParams where
  context_hash : Payload
  max_operations_ttl : Int
  metadata_bytes : Payload
  protocol_hash : Payload
  next_protocol_hash : Payload
deriving DecidableEq, Repr

/-- Parameters of the JsonEncodeApplyBlockOperationsMetadata message. -/
structure JsonEncodeApplyBlockOperationsMetadataParams where
  chain_id : Payload
  operations : List (List Payload)
  operations_metadata_bytes : List (List Payload)
  protocol_hash : Payload
  next_protocol_hash : Payload
deriving DecidableEq, Repr

/-- Inner RPC request of a protocol RPC call; only the context path is
consulted by the client, the rest of the request is opaque. -/
structure RpcRequest where
  context_path : String
  body : Payload
deriving DecidableEq, Repr

/-- Protocol RPC request (ProtocolRpcRequest of tezos_api). -/
structure ProtocolRpcRequest where
  request : RpcRequest
deriving DecidableEq, Repr

/-- Request of the ContextGetKeyFromHistory message. -/
structure ContextGetKeyFromHistoryRequest where
  context_hash : Payload
  key : List String
deriving DecidableEq, Repr

/-- Request of the ContextGetKeyValuesByPrefix message; the source names the
second field after the key prefix. -/
structure ContextGetKeyValuesByPrefixRequest where
  context_hash : Payload
  keyPrefix : List String
deriving DecidableEq, Repr

/-- Request of the ContextGetTreeByPrefix message; the source names the
second field after the key prefix. -/
structure ContextGetTreeByPrefixRequest where
  context_hash : Payload
  keyPrefix : List String
  depth : Option Nat
deriving DecidableEq, Repr

/-- Request of the DumpContext message. -/
structure DumpContextRequest where
  context_hash : Payload
  dump_into_path : String
deriving DecidableEq, Repr

/-- Request of the RestoreContext message. -/
structure RestoreContextRequest where
  expected_context_hash : Payload
  restore_from_path : String
  nb_context_elements : Int
deriving DecidableEq, Repr

/-- Requests sent from the node to the protocol runner (ProtocolMessage of
tezos_protocol_ipc_messages), restricted to the variants the client sends. -/
inductive ProtocolMessage
  | ApplyBlockCall (request : Payload)
  | ContextGetLatestContextHashes (count : Int)
  | AssertEncodingForProtocolDataCall (protocol_hash : Payload) (protocol_data : Payload)
  | BeginApplicationCall (request : Payload)
  | BeginConstruction (request : Payload)
  | PreFilterOperation (request : Payload)
  | ValidateOperation (request : Payload)
  | ComputePathCall (request : Payload)
  | JsonEncodeApplyBlockResultMetadata (params : JsonEncodeApplyBlockResultMetadataParams)
  | JsonEncodeApplyBlockOperationsMetadata (params : JsonEncodeApplyBlockOperationsMetadataParams)
  | ProtocolRpcCall (request : ProtocolRpcRequest)
  | HelpersPreapplyOperationsCall (request : ProtocolRpcRequest)
  | HelpersPreapplyBlockCall (request : Payload)
  | ChangeRuntimeConfigurationCall (settings : Payload)
  | InitProtocolContextCall (params : InitProtocolContextParams)
  | InitProtocolContextIpcServer (cfg : TezosContextStorageConfiguration)
  | GenesisResultDataCall (params : GenesisResultDataParams)
  | ContextGetKeyFromHistory (params : ContextGetKeyFromHistoryRequest)
  | ContextGetKeyValuesByPrefix (params : ContextGetKeyValuesByPrefixRequest)
  | ContextGetTreeByPrefix (params : ContextGetTreeByPrefixRequest)
  | DumpContext (request : DumpContextRequest)
  | RestoreContext (request : RestoreContextRequest)
  | Ping
  | ShutdownCall
deriving DecidableEq, Repr

/-- Replies sent from the protocol runner to the node (NodeMessage of
tezos_protocol_ipc_messages), restricted to the variants the client matches. -/
inductive NodeMessage
  | ApplyBlockResult (result : Except String Payload)
  | ContextGetLatestContextHashesResult (result : Except String (List Payload))
  | AssertEncodingForProtocolDataResult (result : Except String Unit)
  | BeginApplicationResult (result : Except String Payload)
  | BeginConstructionResult (result : Except String Payload)
  | PreFilterOperationResult (result : Except String Payload)
  | ValidateOperationResponse (result : Except String Payload)
  | ComputePathResponse (result : Except String Payload)
  | JsonEncodeApplyBlockResultMetadataResponse (result : Except String String)
  | JsonEncodeApplyBlockOperationsMetadata (result : Except String String)
  | RpcResponse (result : Except String Payload)
  | HelpersPreapplyResponse (result : Except String Payload)
  | ChangeRuntimeConfigurationResult
  | InitProtocolContextResult (result : Except String Payload)
  | InitProtocolContextIpcServerResult (result : Except String Unit)
  | CommitGenesisResultData (result : Except String Payload)
  | ContextGetKeyFromHistoryResult (result : Except String (Option Payload))
  | ContextGetKeyValuesByPrefixResult (result : Except String (Option (List (Payload × Payload))))
  | ContextGetTreeByPrefixResult (result : Except String Payload)
  | DumpContextResponse (result : Except String Int)
  | RestoreContextResponse (result : Except String Unit)
  | PingResult
  | ShutdownResult
deriving DecidableEq, Repr

/-- Kinds of NodeMessage variants (NodeMessageKind); the UnexpectedMessage
error names the kind of the variant actually received. -/
inductive NodeMessageKind
  | ApplyBlockResult
  | ContextGetLatestContextHashesResult
  | AssertEncodingForProtocolDataResult
  | BeginApplicationResult
  | BeginConstructionResult
  | PreFilterOperationResult
  | ValidateOperationResponse
  | ComputePathResponse
  | JsonEncodeApplyBlockResultMetadataResponse
  | JsonEncodeApplyBlockOperationsMetadata
  | RpcResponse
  | HelpersPreapplyResponse
  | ChangeRuntimeConfigurationResult
  | InitProtocolContextResult
  | InitProtocolContextIpcServerResult
  | CommitGenesisResultData
  | ContextGetKeyFromHistoryResult
  | ContextGetKeyValuesByPrefixResult
  | ContextGetTreeByPrefixResult
  | DumpContextResponse
  | RestoreContextResponse
  | PingResult
  | ShutdownResult
deriving DecidableEq, Repr

/-- Mirrors the From conversion of a NodeMessage into its NodeMessageKind. -/
def NodeMessage.kind : NodeMessage → NodeMessageKind
  | .ApplyBlockResult _ => .ApplyBlockResult
  | .ContextGetLatestContextHashesResult _ => .ContextGetLatestContextHashesResult
  | .AssertEncodingForProtocolDataResult _ => .AssertEncodingForProtocolDataResult
  | .BeginApplicationResult _ => .BeginApplicationResult
  | .BeginConstructionResult _ => .BeginConstructionResult
  | .PreFilterOperationResult _ => .PreFilterOperationResult
  | .ValidateOperationResponse _ => .ValidateOperationResponse
  | .ComputePathResponse _ => .ComputePathResponse
  | .JsonEncodeApplyBlockResultMetadataResponse _ => .JsonEncodeApplyBlockResultMetadataResponse
  | .JsonEncodeApplyBlockOperationsMetadata _ => .JsonEncodeApplyBlockOperationsMetadata
  | .RpcResponse _ => .RpcResponse
  | .HelpersPreapplyResponse _ => .HelpersPreapplyResponse
  | .ChangeRuntimeConfigurationResult => .ChangeRuntimeConfigurationResult
  | .InitProtocolContextResult _ => .InitProtocolContextResult
  | .InitProtocolContextIpcServerResult _ => .InitProtocolContextIpcServerResult
  | .CommitGenesisResultData _ => .CommitGenesisResultData
  | .ContextGetKeyFromHistoryResult _ => .ContextGetKeyFromHistoryResult
  | .ContextGetKeyValuesByPrefixResult _ => .ContextGetKeyValuesByPrefixResult
  | .ContextGetTreeByPrefixResult _ => .ContextGetTreeByPrefixResult
  | .DumpContextResponse _ => .DumpContextResponse
  | .RestoreContextResponse _ => .RestoreContextResponse
  | .PingResult => .PingResult
  | .ShutdownResult => .ShutdownResult

/-- Per-protocol error kinds (ProtocolError of tezos_api::ffi), restricted to
the variants the client constructs; every variant carries its reason. -/
inductive ProtocolError
  | ApplyBlockError (reason : String)
  | GetLastContextHashesError (reason : String)
  | AssertEncodingForProtocolDataError (reason : String)
  | BeginApplicationError (reason : String)
  | BeginConstructionError (reason : String)
  | PreFilterOperationError (reason : String)
  | ValidateOperationError (reason : String)
  | ComputePathError (reason : String)
  | FfiJsonEncoderError (caller : String) (reason : String)
  | ProtocolRpcError (reason : String) (request_path : String)
  | HelpersPreapplyError (reason : String)
  | OcamlStorageInitError (reason : String)
  | GenesisResultDataError (reason : String)
  | ContextGetKeyFromHistoryError (reason : String)
  | ContextGetKeyValuesByPrefixError (reason : String)
  | DumpContextError (reason : String)
  | RestoreContextError (reason : String)
deriving DecidableEq, Repr

/-- Per-call service errors (ProtocolServiceError in lib.rs). -/
inductive ProtocolServiceError
  | IpcError (reason : IpcError)
  | ProtocolError (reason : ProtocolError)
  | UnexpectedMessage (message : NodeMessageKind)
  | InvalidDataError (message : String)
  | LockPoisonError (message : String)
  | ContextIpcServerError (message : String)
deriving DecidableEq, Repr

/-- Child-lifecycle errors (ProtocolRunnerError in lib.rs). -/
inductive ProtocolRunnerError
  | SpawnError (reason : String)
  | SocketTimeout
  | TerminateError (reason : String)
deriving DecidableEq, Repr

/-- Scripted IPC channel state (IpcIO in lib.rs). Outgoing messages are
recorded in order in sent; each receive consumes the head of recvScript and
records the timeout it was invoked with; an exhausted script behaves as a
closed channel. Write failures are modelled on the receive side, so send
always succeeds and records the message. -/
structure IpcIo where
  sent : List ProtocolMessage
  recvScript : List (Except IpcError NodeMessage)
  timeouts : List (Option Nat)
deriving DecidableEq, Repr

/-- Mirrors IpcIO::send: the outgoing message is written to the channel. -/
def IpcIo.send (io : IpcIo) (value : ProtocolMessage) : IpcIo :=
  { io with sent := io.sent ++ [value] }

/-- Mirrors IpcIO::try_receive: reads one reply, bounded by the given timeout
when one is supplied (receive with no deadline otherwise). The timeout passed
by the caller is recorded so that theorems can observe it. -/
def IpcIo.tryReceive (io : IpcIo) (read_timeout : Option Nat) :
    Except IpcError NodeMessage × IpcIo :=
  let io1 := { io with timeouts := io.timeouts ++ [read_timeout] }
  match io1.recvScript with
  | [] => (.error ⟨"channel closed"⟩, io1)
  | r :: rest => (r, { io1 with recvScript := rest })

/-- Mirrors the handle_request macro of lib.rs: send the request message,
await one reply within the timeout, then match the reply. The arm function is
the match arm generated per command: it returns some answer on the expected
variant and none on every other variant, in which case the caller gets
UnexpectedMessage carrying the kind of the variant actually received. An
IpcError from the channel is propagated. -/
def handle_request {α : Type} (io : IpcIo) (msg : ProtocolMessage)
    (timeout : Option Nat)
    (arm : NodeMessage → Option (Except ProtocolServiceError α)) :
    Except ProtocolServiceError α × IpcIo :=
  let io1 := io.send msg
  match io1.tryReceive timeout with
  | (.error e, io2) => (.error (.IpcError e), io2)
  | (.ok message, io2) =>
    match arm message with
    | some r => (r, io2)
    | none => (.error (.UnexpectedMessage message.kind), io2)

/-- Mirrors result.map_err of the first handle_request macro form: an inner
Ok payload is returned unchanged, an inner Err reason is wrapped in the
ProtocolError kind of the command. -/
def mapProtocolError {α : Type} (mk : String → ProtocolError) :
    Except String α → Except ProtocolServiceError α
  | .ok v => .ok v
  | .error err => .error (.ProtocolError (mk err))

/-- An exclusive connection to a protocol runner
(ProtocolRunnerConnection in lib.rs). -/
structure ProtocolRunnerConnection where
  configuration : ProtocolRunnerConfiguration
  io : IpcIo
deriving DecidableEq, Repr

namespace ProtocolRunnerConnection

/-- Timeout constants of ProtocolRunnerConnection, in seconds. -/
def DEFAULT_TIMEOUT : Nat := 10

def DEFAULT_TIMEOUT_LONG : Nat := 60 * 2

def DEFAULT_TIMEOUT_VERY_LONG : Nat := 60 * 30

def APPLY_BLOCK_TIMEOUT : Nat := 60 * 240

def GET_LATEST_CONTEXT_HASHES_TIMEOUT : Nat := APPLY_BLOCK_TIMEOUT

def INIT_PROTOCOL_CONTEXT_TIMEOUT : Nat := DEFAULT_TIMEOUT_LONG

def BEGIN_APPLICATION_TIMEOUT : Nat := DEFAULT_TIMEOUT_LONG

def BEGIN_CONSTRUCTION_TIMEOUT : Nat := DEFAULT_TIMEOUT_LONG

def VALIDATE_OPERATION_TIMEOUT : Nat := DEFAULT_TIMEOUT_LONG

def CALL_PROTOCOL_RPC_TIMEOUT : Nat := DEFAULT_TIMEOUT_LONG

def CALL_PROTOCOL_HEAVY_RPC_TIMEOUT : Nat := DEFAULT_TIMEOUT_VERY_LONG

def COMPUTE_PATH_TIMEOUT : Nat := DEFAULT_TIMEOUT_LONG

def JSON_ENCODE_DATA_TIMEOUT : Nat := DEFAULT_TIMEOUT_LONG

def ASSERT_ENCODING_FOR_PROTOCOL_DATA_TIMEOUT : Nat := DEFAULT_TIMEOUT_LONG

def PING_TIMEOUT : Nat := 1

/-- Mirrors ProtocolRunnerConnection::apply_block. -/
def apply_block (self : ProtocolRunnerConnection) (request : Payload) :
    Except ProtocolServiceError Payload × ProtocolRunnerConnection :=
  let p := handle_request self.io (.ApplyBlockCall request) (some APPLY_BLOCK_TIMEOUT)
    (fun m => match m with
      | .ApplyBlockResult result => some (mapProtocolError ProtocolError.ApplyBlockError result)
      | _ => none)
  (p.1, { self with io := p.2 })

/-- Mirrors ProtocolRunnerConnection::latest_context_hashes. -/
def latest_context_hashes (self : ProtocolRunnerConnection) (count : Int) :
    Except ProtocolServiceError (List Payload) × ProtocolRunnerConnection :=
  let p := handle_request self.io (.ContextGetLatestContextHashes count)
    (some GET_LATEST_CONTEXT_HASHES_TIMEOUT)
    (fun m => match m with
      | .ContextGetLatestContextHashesResult result =>
          some (mapProtocolError ProtocolError.GetLastContextHashesError result)
      | _ => none)
  (p.1, { self with io := p.2 })

/-- Mirrors ProtocolRunnerConnection::assert_encoding_for_protocol_data. -/
def assert_encoding_for_protocol_data (self : ProtocolRunnerConnection)
    (protocol_hash : Payload) (protocol_data : Payload) :
    Except ProtocolServiceError Unit × ProtocolRunnerConnection :=
  let p := handle_request self.io
    (.AssertEncodingForProtocolDataCall protocol_hash protocol_data)
    (some ASSERT_ENCODING_FOR_PROTOCOL_DATA_TIMEOUT)
    (fun m => match m with
      | .AssertEncodingForProtocolDataResult result =>
          some (mapProtocolError ProtocolError.AssertEncodingForProtocolDataError result)
      | _ => none)
  (p.1, { self with io := p.2 })

/-- Mirrors ProtocolRunnerConnection::begin_application. -/
def begin_application (self : ProtocolRunnerConnection) (request : Payload) :
    Except ProtocolServiceError Payload × ProtocolRunnerConnection :=
  let p := handle_request self.io (.BeginApplicationCall request)
    (some BEGIN_APPLICATION_TIMEOUT)
    (fun m => match m with
      | .BeginApplicationResult result =>
          some (mapProtocolError ProtocolError.BeginApplicationError result)
      | _ => none)
  (p.1, { self with io := p.2 })

/-- Mirrors ProtocolRunnerConnection::begin_construction. -/
def begin_construction (self : ProtocolRunnerConnection) (request : Payload) :
    Except ProtocolServiceError Payload × ProtocolRunnerConnection :=
  let p := handle_request self.io (.BeginConstruction request)
    (some BEGIN_CONSTRUCTION_TIMEOUT)
    (fun m => match m with
      | .BeginConstructionResult result =>
          some (mapProtocolError ProtocolError.BeginConstructionError result)
      | _ => none)
  (p.1, { self with io := p.2 })

/-- Mirrors ProtocolRunnerConnection::pre_filter_operation. -/
def pre_filter_operation (self : ProtocolRunnerConnection) (request : Payload) :
    Except ProtocolServiceError Payload × ProtocolRunnerConnection :=
  let p := handle_request self.io (.PreFilterOperation request)
    (some VALIDATE_OPERATION_TIMEOUT)
    (fun m => match m with
      | .PreFilterOperationResult result =>
          some (mapProtocolError ProtocolError.PreFilterOperationError result)
      | _ => none)
  (p.1, { self with io := p.2 })

/-- Mirrors ProtocolRunnerConnection::validate_operation. -/
def validate_operation (self : ProtocolRunnerConnection) (request : Payload) :
    Except ProtocolServiceError Payload × ProtocolRunnerConnection :=
  let p := handle_request self.io (.ValidateOperation request)
    (some VALIDATE_OPERATION_TIMEOUT)
    (fun m => match m with
      | .ValidateOperationResponse result =>
          some (mapProtocolError ProtocolError.ValidateOperationError result)
      | _ => none)
  (p.1, { self with io := p.2 })

/-- Mirrors ProtocolRunnerConnection::compute_path. -/
def compute_path (self : ProtocolRunnerConnection) (request : Payload) :
    Except ProtocolServiceError Payload × ProtocolRunnerConnection :=
  let p := handle_request self.io (.ComputePathCall request)
    (some COMPUTE_PATH_TIMEOUT)
    (fun m => match m with
      | .ComputePathResponse result =>
          some (mapProtocolError ProtocolError.ComputePathError result)
      | _ => none)
  (p.1, { self with io := p.2 })

/-- Mirrors ProtocolRunnerConnection::apply_block_result_metadata: the
parameters are assembled into JsonEncodeApplyBlockResultMetadataParams and an
inner Err becomes FfiJsonEncoderError with this caller name. -/
def apply_block_result_metadata (self : ProtocolRunnerConnection)
    (context_hash : Payload) (metadata_bytes : Payload) (max_operations_ttl : Int)
    (protocol_hash : Payload) (next_protocol_hash : Payload) :
    Except ProtocolServiceError String × ProtocolRunnerConnection :=
  let params : JsonEncodeApplyBlockResultMetadataParams :=
    { context_hash, max_operations_ttl, metadata_bytes, protocol_hash, next_protocol_hash }
  let p := handle_request self.io (.JsonEncodeApplyBlockResultMetadata params)
    (some JSON_ENCODE_DATA_TIMEOUT)
    (fun m => match m with
      | .JsonEncodeApplyBlockResultMetadataResponse result =>
          some (mapProtocolError
            (fun err => ProtocolError.FfiJsonEncoderError "apply_block_result_metadata" err)
            result)
      | _ => none)
  (p.1, { self with io := p.2 })

/-- Mirrors ProtocolRunnerConnection::apply_block_operations_metadata; the
request and the reply use the same variant name in the message schema. -/
def apply_block_operations_metadata (self : ProtocolRunnerConnection)
    (chain_id : Payload) (operations : List (List Payload))
    (operations_metadata_bytes : List (List Payload))
    (protocol_hash : Payload) (next_protocol_hash : Payload) :
    Except ProtocolServiceError String × ProtocolRunnerConnection :=
  let params : JsonEncodeApplyBlockOperationsMetadataParams :=
    { chain_id, operations, operations_metadata_bytes, protocol_hash, next_protocol_hash }
  let p := handle_request self.io (.JsonEncodeApplyBlockOperationsMetadata params)
    (some JSON_ENCODE_DATA_TIMEOUT)
    (fun m => match m with
      | .JsonEncodeApplyBlockOperationsMetadata result =>
          some (mapProtocolError
            (fun err => ProtocolError.FfiJsonEncoderError "apply_block_operations_metadata" err)
            result)
      | _ => none)
  (p.1, { self with io := p.2 })

/-- Mirrors ProtocolRunnerConnection::call_protocol_rpc_internal. -/
def call_protocol_rpc_internal (self : ProtocolRunnerConnection)
    (request_path : String) (request : ProtocolRpcRequest) :
    Except ProtocolServiceError Payload × ProtocolRunnerConnection :=
  let p := handle_request self.io (.ProtocolRpcCall request)
    (some CALL_PROTOCOL_HEAVY_RPC_TIMEOUT)
    (fun m => match m with
      | .RpcResponse result =>
          some (mapProtocolError
            (fun err => ProtocolError.ProtocolRpcError err request_path) result)
      | _ => none)
  (p.1, { self with io := p.2 })

/-- Mirrors ProtocolRunnerConnection::call_protocol_rpc: the request path is
the context path of the inner request. -/
def call_protocol_rpc (self : ProtocolRunnerConnection) (request : ProtocolRpcRequest) :
    Except ProtocolServiceError Payload × ProtocolRunnerConnection :=
  self.call_protocol_rpc_internal request.request.context_path request

/-- Mirrors ProtocolRunnerConnection::helpers_preapply_operations. -/
def helpers_preapply_operations (self : ProtocolRunnerConnection)
    (request : ProtocolRpcRequest) :
    Except ProtocolServiceError Payload × ProtocolRunnerConnection :=
  let p := handle_request self.io (.HelpersPreapplyOperationsCall request)
    (some CALL_PROTOCOL_RPC_TIMEOUT)
    (fun m => match m with
      | .HelpersPreapplyResponse result =>
          some (mapProtocolError ProtocolError.HelpersPreapplyError result)
      | _ => none)
  (p.1, { self with io := p.2 })

/-- Mirrors ProtocolRunnerConnection::helpers_preapply_block. -/
def helpers_preapply_block (self : ProtocolRunnerConnection) (request : Payload) :
    Except ProtocolServiceError Payload × ProtocolRunnerConnection :=
  let p := handle_request self.io (.HelpersPreapplyBlockCall request)
    (some CALL_PROTOCOL_RPC_TIMEOUT)
    (fun m => match m with
      | .HelpersPreapplyResponse result =>
          some (mapProtocolError ProtocolError.HelpersPreapplyError result)
      | _ => none)
  (p.1, { self with io := p.2 })

/-- Mirrors ProtocolRunnerConnection::change_runtime_configuration (second
macro form: the reply variant carries no payload and the call returns unit). -/
def change_runtime_configuration (self : ProtocolRunnerConnection) (settings : Payload) :
    Except ProtocolServiceError Unit × ProtocolRunnerConnection :=
  let p := handle_request self.io (.ChangeRuntimeConfigurationCall settings)
    (some DEFAULT_TIMEOUT)
    (fun m => match m with
      | .ChangeRuntimeConfigurationResult => some (.ok ())
      | _ => none)
  (p.1, { self with io := p.2 })

/-- Mirrors ProtocolRunnerConnection::init_protocol_context_raw. -/
def init_protocol_context_raw (self : ProtocolRunnerConnection)
    (params : InitProtocolContextParams) :
    Except ProtocolServiceError Payload × ProtocolRunnerConnection :=
  let p := handle_request self.io (.InitProtocolContextCall params)
    (some INIT_PROTOCOL_CONTEXT_TIMEOUT)
    (fun m => match m with
      | .InitProtocolContextResult result =>
          some (mapProtocolError ProtocolError.OcamlStorageInitError result)
      | _ => none)
  (p.1, { self with io := p.2 })

/-- Mirrors ProtocolRunnerConnection::init_protocol_context: assembles
InitProtocolContextParams from the storage settings and the environment; a
failing genesis_additional_data derivation becomes InvalidDataError before
anything is sent. -/
def init_protocol_context (self : ProtocolRunnerConnection)
    (storage : TezosContextStorageConfiguration)
    (tezos_environment : TezosEnvironmentConfiguration)
    (commit_genesis : Bool) (enable_testchain : Bool) (readonly : Bool)
    (patch_context : Option Payload) (context_stats_db_path : Option String) :
    Except ProtocolServiceError Payload × ProtocolRunnerConnection :=
  match tezos_environment.genesis_additional_data with
  | .error error => (.error (.InvalidDataError error), self)
  | .ok gad =>
    let params : InitProtocolContextParams :=
      { storage
        genesis := tezos_environment.genesis
        genesis_max_operations_ttl := gad.max_operations_ttl
        protocol_overrides := tezos_environment.protocol_overrides
        commit_genesis
        enable_testchain
        readonly
        patch_context
        context_stats_db_path }
    self.init_protocol_context_raw params

/-- Mirrors ProtocolRunnerConnection::ping. -/
def ping (self : ProtocolRunnerConnection) :
    Except ProtocolServiceError Unit × ProtocolRunnerConnection :=
  let p := handle_request self.io .Ping (some PING_TIMEOUT)
    (fun m => match m with
      | .PingResult => some (.ok ())
      | _ => none)
  (p.1, { self with io := p.2 })

/-- Mirrors ProtocolRunnerConnection::shutdown. -/
def shutdown (self : ProtocolRunnerConnection) :
    Except ProtocolServiceError Unit × ProtocolRunnerConnection :=
  let p := handle_request self.io .ShutdownCall (some DEFAULT_TIMEOUT)
    (fun m => match m with
      | .ShutdownResult => some (.ok ())
      | _ => none)
  (p.1, { self with io := p.2 })

/-- Mirrors ProtocolRunnerConnection::init_context_ipc_server_raw: an inner
Err is surfaced as the service-level ContextIpcServerError whose message
embeds the reason after a fixed prefix. -/
def init_context_ipc_server_raw (self : ProtocolRunnerConnection)
    (cfg : TezosContextStorageConfiguration) :
    Except ProtocolServiceError Unit × ProtocolRunnerConnection :=
  let p := handle_request self.io (.InitProtocolContextIpcServer cfg)
    (some DEFAULT_TIMEOUT)
    (fun m => match m with
      | .InitProtocolContextIpcServerResult result =>
          some (match result with
            | .ok _ => .ok ()
            | .error err =>
                .error (.ContextIpcServerError
                  ("Failure when starting context IPC server: " ++ err)))
      | _ => none)
  (p.1, { self with io := p.2 })

/-- Mirrors ProtocolRunnerConnection::init_context_ipc_server: sends the
InitProtocolContextIpcServer message iff the storage configuration carries an
IPC socket path, and succeeds without sending anything otherwise. -/
def init_context_ipc_server (self : ProtocolRunnerConnection) :
    Except ProtocolServiceError Unit × ProtocolRunnerConnection :=
  if (self.configuration.storage.get_ipc_socket_path).isSome then
    self.init_context_ipc_server_raw self.configuration.storage
  else
    (.ok (), self)

/-- Mirrors ProtocolRunnerConnection::init_protocol_for_write:
change_runtime_configuration, then init_protocol_context with readonly set to
false, then init_context_ipc_server; the result of the context initialization
is returned. -/
def init_protocol_for_write (self : ProtocolRunnerConnection)
    (commit_genesis : Bool) (patch_context : Option Payload)
    (context_stats_db_path : Option String) :
    Except ProtocolServiceError Payload × ProtocolRunnerConnection :=
  match self.change_runtime_configuration self.configuration.runtime_configuration with
  | (.error e, s1) => (.error e, s1)
  | (.ok _, s1) =>
    match s1.init_protocol_context s1.configuration.storage s1.configuration.environment
        commit_genesis s1.configuration.enable_testchain false patch_context
        context_stats_db_path with
    | (.error e, s2) => (.error e, s2)
    | (.ok result, s2) =>
      match s2.init_context_ipc_server with
      | (.error e, s3) => (.error e, s3)
      | (.ok _, s3) => (.ok result, s3)

/-- Mirrors ProtocolRunnerConnection::init_protocol_for_read:
change_runtime_configuration, then init_protocol_context with readonly true,
commit_genesis false, no patch context and no stats path. -/
def init_protocol_for_read (self : ProtocolRunnerConnection) :
    Except ProtocolServiceError Payload × ProtocolRunnerConnection :=
  match self.change_runtime_configuration self.configuration.runtime_configuration with
  | (.error e, s1) => (.error e, s1)
  | (.ok _, s1) =>
    s1.init_protocol_context s1.configuration.storage s1.configuration.environment
      false s1.configuration.enable_testchain true none none

/-- Mirrors ProtocolRunnerConnection::genesis_result_data_raw. -/
def genesis_result_data_raw (self : ProtocolRunnerConnection)
    (params : GenesisResultDataParams) :
    Except ProtocolServiceError Payload × ProtocolRunnerConnection :=
  let p := handle_request self.io (.GenesisResultDataCall params)
    (some DEFAULT_TIMEOUT)
    (fun m => match m with
      | .CommitGenesisResultData result =>
          some (mapProtocolError ProtocolError.GenesisResultDataError result)
      | _ => none)
  (p.1, { self with io := p.2 })

/-- Mirrors ProtocolRunnerConnection::genesis_result_data: derives the chain
id, the genesis protocol and the max operations ttl from the environment,
turning derivation failures into InvalidDataError, then issues
GenesisResultDataCall. -/
def genesis_result_data (self : ProtocolRunnerConnection)
    (genesis_context_hash : Payload) :
    Except ProtocolServiceError Payload × ProtocolRunnerConnection :=
  let tezos_environment := self.configuration.environment
  match tezos_environment.main_chain_id with
  | .error e => (.error (.InvalidDataError e), self)
  | .ok main_chain_id =>
    match tezos_environment.genesis_protocol with
    | .error e => (.error (.InvalidDataError e), self)
    | .ok protocol_hash =>
      match tezos_environment.genesis_additional_data with
      | .error e => (.error (.InvalidDataError e), self)
      | .ok gad =>
        self.genesis_result_data_raw
          { genesis_context_hash
            chain_id := main_chain_id
            genesis_protocol_hash := protocol_hash
            genesis_max_operations_ttl := gad.max_operations_ttl }

/-- Mirrors ProtocolRunnerConnection::get_context_key_from_history. -/
def get_context_key_from_history (self : ProtocolRunnerConnection)
    (context_hash : Payload) (key : List String) :
    Except ProtocolServiceError (Option Payload) × ProtocolRunnerConnection :=
  let params : ContextGetKeyFromHistoryRequest := { context_hash, key }
  let p := handle_request self.io (.ContextGetKeyFromHistory params)
    (some DEFAULT_TIMEOUT)
    (fun m => match m with
      | .ContextGetKeyFromHistoryResult result =>
          some (mapProtocolError ProtocolError.ContextGetKeyFromHistoryError result)
      | _ => none)
  (p.1, { self with io := p.2 })

/-- Mirrors ProtocolRunnerConnection::get_context_key_values_by_prefix. -/
def getContextKeyValuesByPrefix (self : ProtocolRunnerConnection)
    (context_hash : Payload) (keyPrefix : List String) :
    Except ProtocolServiceError (Option (List (Payload × Payload))) × ProtocolRunnerConnection :=
  let params : ContextGetKeyValuesByPrefixRequest := { context_hash, keyPrefix }
  let p := handle_request self.io (.ContextGetKeyValuesByPrefix params)
    (some DEFAULT_TIMEOUT_VERY_LONG)
    (fun m => match m with
      | .ContextGetKeyValuesByPrefixResult result =>
          some (mapProtocolError ProtocolError.ContextGetKeyValuesByPrefixError result)
      | _ => none)
  (p.1, { self with io := p.2 })

/-- Mirrors ProtocolRunnerConnection::get_context_tree_by_prefix; note that
the source maps its inner Err to ContextGetKeyValuesByPrefixError as well. -/
def getContextTreeByPrefix (self : ProtocolRunnerConnection)
    (context_hash : Payload) (keyPrefix : List String) (depth : Option Nat) :
    Except ProtocolServiceError Payload × ProtocolRunnerConnection :=
  let params : ContextGetTreeByPrefixRequest := { context_hash, keyPrefix, depth }
  let p := handle_request self.io (.ContextGetTreeByPrefix params)
    (some DEFAULT_TIMEOUT_VERY_LONG)
    (fun m => match m with
      | .ContextGetTreeByPrefixResult result =>
          some (mapProtocolError ProtocolError.ContextGetKeyValuesByPrefixError result)
      | _ => none)
  (p.1, { self with io := p.2 })

/-- Mirrors ProtocolRunnerConnection::dump_context: the receive step runs with
no deadline at all. -/
def dump_context (self : ProtocolRunnerConnection)
    (context_hash : Payload) (dump_into_path : String) :
    Except ProtocolServiceError Int × ProtocolRunnerConnection :=
  let request : DumpContextRequest := { context_hash, dump_into_path }
  let p := handle_request self.io (.DumpContext request) none
    (fun m => match m with
      | .DumpContextResponse result =>
          some (mapProtocolError ProtocolError.DumpContextError result)
      | _ => none)
  (p.1, { self with io := p.2 })

/-- Mirrors ProtocolRunnerConnection::restore_context: the receive step runs
with no deadline at all. -/
def restore_context (self : ProtocolRunnerConnection)
    (expected_context_hash : Payload) (restore_from_path : String)
    (nb_context_elements : Int) :
    Except ProtocolServiceError Unit × ProtocolRunnerConnection :=
  let request : RestoreContextRequest :=
    { expected_context_hash, restore_from_path, nb_context_elements }
  let p := handle_request self.io (.RestoreContext request) none
    (fun m => match m with
      | .RestoreContextResponse result =>
          some (mapProtocolError ProtocolError.RestoreContextError result)
      | _ => none)
  (p.1, { self with io := p.2 })

end ProtocolRunnerConnection

/-- Observable filesystem and process actions of the runner API. The kill
constructor stands for any terminate or kill request addressed to the child;
the source never emits it from start. -/
inductive RunnerEvent
  | removeFile (path : String)
  | spawnChild (executable : String) (args : List String)
  | kill
deriving DecidableEq, Repr

/-- The runner API (ProtocolRunnerApi in lib.rs); the readiness watch and the
runtime handle are modelled separately, the remaining state is the socket
path chosen at construction, the endpoint name and the configuration. -/
structure ProtocolRunnerApi where
  socket_path : String
  endpoint_name : String
  configuration : ProtocolRunnerConfiguration
deriving DecidableEq, Repr

/-- Mirrors ProtocolRunnerApi::new: stores the configuration, allocates a
process-unique socket path and fixes the endpoint name. -/
def ProtocolRunnerApi.new (configuration : ProtocolRunnerConfiguration)
    (temp_sock : String) : ProtocolRunnerApi :=
  { socket_path := temp_sock
    endpoint_name := "writable-protocol-runner"
    configuration }

/-- Mirrors ProtocolRunnerApi::spawn_process: launches the configured
executable with the command line
  --socket-path [path] --endpoint [name] --log-level [token]
where the token is the lowercase rendering of the log level. The outcome of
the operating-system spawn is a parameter; on failure no child is launched
and the error reason is wrapped in SpawnError. -/
def spawn_process (executable_path : String) (socket_path : String)
    (endpoint_name : String) (log_level : Level)
    (spawnResult : Except String Child) :
    Except ProtocolRunnerError Child × List RunnerEvent :=
  match spawnResult with
  | .error reason => (.error (.SpawnError reason), [])
  | .ok child =>
      (.ok child,
        [.spawnChild executable_path
          ["--socket-path", socket_path, "--endpoint", endpoint_name,
            "--log-level", to_lowercase log_level.as_str]])

/-- Mirrors ProtocolRunnerApi::spawn: removes the socket file so that
wait_for_socket does not prematurely find a stale one, then spawns the
process. The source ignores errors of the removal itself. -/
def ProtocolRunnerApi.spawn (self : ProtocolRunnerApi)
    (spawnResult : Except String Child) :
    Except ProtocolRunnerError Child × List RunnerEvent :=
  let p := spawn_process self.configuration.executable_path self.socket_path
    self.endpoint_name self.configuration.log_level spawnResult
  (p.1, .removeFile self.socket_path :: p.2)

/-- Poll loop of ProtocolRunnerApi::wait_for_socket. The filesystem is
modelled by the predicate ex giving the existence of the socket path at each
elapsed time in milliseconds; every iteration checks existence, then returns
SocketTimeout once the elapsed time exceeds the deadline, and otherwise
sleeps 100 ms. The fuel bounds the number of iterations of the model; none
means the loop is still polling after fuel iterations. On return, the second
component is the elapsed time at which the loop finished. -/
def wait_for_socket_loop (ex : Nat → Bool) (timeout : Nat) :
    Nat → Nat → Option (Except ProtocolRunnerError Unit × Nat)
  | fuel, t =>
    if ex t then
      some (.ok (), t)
    else if timeout < t then
      some (.error .SocketTimeout, t)
    else
      match fuel with
      | 0 => none
      | fuel + 1 => wait_for_socket_loop ex timeout fuel (t + 100)

/-- Mirrors ProtocolRunnerApi::wait_for_socket: the deadline defaults to
3 seconds (3000 ms) when the caller passes no timeout. -/
def wait_for_socket (ex : Nat → Bool) (timeout : Option Nat) (fuel : Nat) :
    Option (Except ProtocolRunnerError Unit × Nat) :=
  wait_for_socket_loop ex (timeout.getD 3000) fuel 0

/-- Mirrors ProtocolRunnerApi::start: spawn the child, then wait for the
socket. The first component is none while the waiter is still polling; the
second component lists the actions performed. On a waiter failure the spawned
child handle is dropped: it is neither part of the result nor sent any
terminate or kill request. -/
def ProtocolRunnerApi.start (self : ProtocolRunnerApi)
    (spawnResult : Except String Child) (ex : Nat → Bool)
    (timeout : Option Nat) (fuel : Nat) :
    Option (Except ProtocolRunnerError Child) × List RunnerEvent :=
  let p := self.spawn spawnResult
  (match p.1 with
    | .error e => some (.error e)
    | .ok child =>
      match wait_for_socket ex timeout fuel with
      | none => none
      | some (.error e, _) => some (.error e)
      | some (.ok _, _) => some (.ok child),
    p.2)

/-- Outcome of one run of ProtocolRunnerApi::wait_for_context_init against an
observation trace of the readiness watch. -/
inductive WaitOutcome
  | ok
  | closedErr
  | suspended
deriving DecidableEq, Repr

/-- Mirrors ProtocolRunnerApi::wait_for_context_init as a function of the
values the loop observes at its successive borrow_and_update calls: the first
element is the value at entry, each further element is delivered by one
changed notification. When the observations are exhausted, the next changed
call either fails because the sender side was dropped (closed true, the
RecvError path) or stays pending forever (closed false, the loop is
suspended). Once a true value is observed the loop breaks with Ok. -/
def wait_for_context_init : List Bool → Bool → WaitOutcome
  | [], closed => if closed then .closedErr else .suspended
  | b :: rest, closed => if b then .ok else wait_for_context_init rest closed

/-- Mirrors ProtocolRunnerApi::readable_connection: awaits
wait_for_context_init, discarding its result, then calls connect. The
returned Boolean tells whether connect is reached, that is whether an IPC
transport is opened. -/
def readable_connection (obs : List Bool) (closed : Bool) : Bool :=
  match wait_for_context_init obs closed with
  | .suspended => false
  | _ => true

/-- Mirrors the free function handle_protocol_service_error: the caller
supplied log callback is modelled by returning the list of errors passed to
it (in order), alongside the result. -/
def handle_protocol_service_error (error : ProtocolServiceError) :
    Except ProtocolServiceError Unit × List ProtocolServiceError :=
  match error with
  | .IpcError _ | .UnexpectedMessage _ => (.error error, [])
  | _ => (.ok (), [error])

/-- The messages recorded by handle_request: exactly the request message is
appended to the channel. -/
theorem handle_request_sent {α : Type} (io : IpcIo) (msg : ProtocolMessage)
    (timeout : Option Nat)
    (arm : NodeMessage → Option (Except ProtocolServiceError α)) :
    (handle_request io msg timeout arm).2.sent = io.sent ++ [msg] := by
  unfold handle_request IpcIo.send IpcIo.tryReceive
  rcases io with ⟨sent, scr, tos⟩
  rcases scr with _ | ⟨r, rest⟩
  · rfl
  · rcases r with e | m
    · rfl
    · cases harm : arm m <;> simp [harm]

/-- The timeouts recorded by handle_request: exactly the timeout of the
command is passed to the receive step. -/
theorem handle_request_timeouts {α : Type} (io : IpcIo) (msg : ProtocolMessage)
    (timeout : Option Nat)
    (arm : NodeMessage → Option (Except ProtocolServiceError α)) :
    (handle_request io msg timeout arm).2.timeouts = io.timeouts ++ [timeout] := by
  unfold handle_request IpcIo.send IpcIo.tryReceive
  rcases io with ⟨sent, scr, tos⟩
  rcases scr with _ | ⟨r, rest⟩
  · rfl
  · rcases r with e | m
    · rfl
    · cases harm : arm m <;> simp [harm]

/-- When the scripted reply is a message the match arm answers, the answer is
returned. -/
theorem handle_request_result_some {α : Type} (io : IpcIo) (msg : ProtocolMessage)
    (timeout : Option Nat)
    (arm : NodeMessage → Option (Except ProtocolServiceError α))
    (m : NodeMessage) (rest : List (Except IpcError NodeMessage))
    (r : Except ProtocolServiceError α)
    (hscr : io.recvScript = .ok m :: rest) (harm : arm m = some r) :
    (handle_request io msg timeout arm).1 = r := by
  unfold handle_request IpcIo.send IpcIo.tryReceive
  rcases io with ⟨sent, scr, tos⟩
  simp only at hscr
  subst hscr
  simp [harm]

/-- When the scripted reply is a message the match arm does not answer, the
result is UnexpectedMessage carrying the kind of the received variant. -/
theorem handle_request_result_none {α : Type} (io : IpcIo) (msg : ProtocolMessage)
    (timeout : Option Nat)
    (arm : NodeMessage → Option (Except ProtocolServiceError α))
    (m : NodeMessage) (rest : List (Except IpcError NodeMessage))
    (hscr : io.recvScript = .ok m :: rest) (harm : arm m = none) :
    (handle_request io msg timeout arm).1 = .error (.UnexpectedMessage m.kind) := by
  unfold handle_request IpcIo.send IpcIo.tryReceive
  rcases io with ⟨sent, scr, tos⟩
  simp only at hscr
  subst hscr
  simp [harm]

/-- Response-matching contract of a standard command (first handle_request
macro form): the request message is sent; on the expected reply variant an
inner Ok payload is returned unchanged and an inner Err reason is wrapped in
the ProtocolError kind of the command; on any other variant the result is
UnexpectedMessage naming the kind of the variant actually received. -/
def StandardCommand {α : Type}
    (run : ProtocolRunnerConnection → Except ProtocolServiceError α × ProtocolRunnerConnection)
    (msg : ProtocolMessage) (wrap : Except String α → NodeMessage)
    (mkErr : String → ProtocolError) : Prop :=
  (∀ conn, (run conn).2.io.sent = conn.io.sent ++ [msg]) ∧
  (∀ conn v rest, conn.io.recvScript = .ok (wrap (.ok v)) :: rest →
    (run conn).1 = .ok v) ∧
  (∀ conn e rest, conn.io.recvScript = .ok (wrap (.error e)) :: rest →
    (run conn).1 = .error (.ProtocolError (mkErr e))) ∧
  (∀ conn m rest, conn.io.recvScript = .ok m :: rest → (∀ r, m ≠ wrap r) →
    (run conn).1 = .error (.UnexpectedMessage m.kind))

/-- Response-matching contract of a command whose reply variant carries no
payload (second handle_request macro form with a unit result). -/
def UnitCommand
    (run : ProtocolRunnerConnection → Except ProtocolServiceError Unit × ProtocolRunnerConnection)
    (msg : ProtocolMessage) (expected : NodeMessage) : Prop :=
  (∀ conn, (run conn).2.io.sent = conn.io.sent ++ [msg]) ∧
  (∀ conn rest, conn.io.recvScript = .ok expected :: rest → (run conn).1 = .ok ()) ∧
  (∀ conn m rest, conn.io.recvScript = .ok m :: rest → m ≠ expected →
    (run conn).1 = .error (.UnexpectedMessage m.kind))

/-- Response-matching contract of init_context_ipc_server_raw: an inner Err
reason is surfaced as the service-level ContextIpcServerError whose message
is the reason behind a fixed prefix, not as a ProtocolError carrying the bare
reason. -/
def IpcServerCommand
    (run : ProtocolRunnerConnection → Except ProtocolServiceError Unit × ProtocolRunnerConnection)
    (msg : ProtocolMessage) : Prop :=
  (∀ conn, (run conn).2.io.sent = conn.io.sent ++ [msg]) ∧
  (∀ conn rest,
    conn.io.recvScript = .ok (.InitProtocolContextIpcServerResult (.ok ())) :: rest →
    (run conn).1 = .ok ()) ∧
  (∀ conn e rest,
    conn.io.recvScript = .ok (.InitProtocolContextIpcServerResult (.error e)) :: rest →
    (run conn).1 = .error (.ContextIpcServerError
      ("Failure when starting context IPC server: " ++ e))) ∧
  (∀ conn m rest, conn.io.recvScript = .ok m :: rest →
    (∀ r, m ≠ .InitProtocolContextIpcServerResult r) →
    (run conn).1 = .error (.UnexpectedMessage m.kind))

theorem apply_block_spec (request : Payload) :
    StandardCommand (fun conn => conn.apply_block request)
      (.ApplyBlockCall request) NodeMessage.ApplyBlockResult
      ProtocolError.ApplyBlockError := by
  refine ⟨?_, ?_, ?_, ?_⟩
  · intro conn
    exact handle_request_sent conn.io _ _ _
  · intro conn v rest h
    exact handle_request_result_some conn.io _ _ _ _ rest _ h rfl
  · intro conn e rest h
    exact handle_request_result_some conn.io _ _ _ _ rest _ h rfl
  · intro conn m rest h hm
    refine handle_request_result_none conn.io _ _ _ _ rest h ?_
    cases m <;> first | rfl | exact absurd rfl (hm _)

theorem latest_context_hashes_spec (count : Int) :
    StandardCommand (fun conn => conn.latest_context_hashes count)
      (.ContextGetLatestContextHashes count)
      NodeMessage.ContextGetLatestContextHashesResult
      ProtocolError.GetLastContextHashesError := by
  refine ⟨?_, ?_, ?_, ?_⟩
  · intro conn
    exact handle_request_sent conn.io _ _ _
  · intro conn v rest h
    exact handle_request_result_some conn.io _ _ _ _ rest _ h rfl
  · intro conn e rest h
    exact handle_request_result_some conn.io _ _ _ _ rest _ h rfl
  · intro conn m rest h hm
    refine handle_request_result_none conn.io _ _ _ _ rest h ?_
    cases m <;> first | rfl | exact absurd rfl (hm _)

theorem assert_encoding_for_protocol_data_spec (protocol_hash protocol_data : Payload) :
    StandardCommand (fun conn => conn.assert_encoding_for_protocol_data protocol_hash protocol_data)
      (.AssertEncodingForProtocolDataCall protocol_hash protocol_data)
      NodeMessage.AssertEncodingForProtocolDataResult
      ProtocolError.AssertEncodingForProtocolDataError := by
  refine ⟨?_, ?_, ?_, ?_⟩
  · intro conn
    exact handle_request_sent conn.io _ _ _
  · intro conn v rest h
    exact handle_request_result_some conn.io _ _ _ _ rest _ h rfl
  · intro conn e rest h
    exact handle_request_result_some conn.io _ _ _ _ rest _ h rfl
  · intro conn m rest h hm
    refine handle_request_result_none conn.io _ _ _ _ rest h ?_
    cases m <;> first | rfl | exact absurd rfl (hm _)

theorem begin_application_spec (request : Payload) :
    StandardCommand (fun conn => conn.begin_application request)
      (.BeginApplicationCall request) NodeMessage.BeginApplicationResult
      ProtocolError.BeginApplicationError := by
  refine ⟨?_, ?_, ?_, ?_⟩
  · intro conn
    exact handle_request_sent conn.io _ _ _
  · intro conn v rest h
    exact handle_request_result_some conn.io _ _ _ _ rest _ h rfl
  · intro conn e rest h
    exact handle_request_result_some conn.io _ _ _ _ rest _ h rfl
  · intro conn m rest h hm
    refine handle_request_result_none conn.io _ _ _ _ rest h ?_
    cases m <;> first | rfl | exact absurd rfl (hm _)

theorem begin_construction_spec (request : Payload) :
    StandardCommand (fun conn => conn.begin_construction request)
      (.BeginConstruction request) NodeMessage.BeginConstructionResult
      ProtocolError.BeginConstructionError := by
  refine ⟨?_, ?_, ?_, ?_⟩
  · intro conn
    exact handle_request_sent conn.io _ _ _
  · intro conn v rest h
    exact handle_request_result_some conn.io _ _ _ _ rest _ h rfl
  · intro conn e rest h
    exact handle_request_result_some conn.io _ _ _ _ rest _ h rfl
  · intro conn m rest h hm
    refine handle_request_result_none conn.io _ _ _ _ rest h ?_
    cases m <;> first | rfl | exact absurd rfl (hm _)

theorem pre_filter_operation_spec (request : Payload) :
    StandardCommand (fun conn => conn.pre_filter_operation request)
      (.PreFilterOperation request) NodeMessage.PreFilterOperationResult
      ProtocolError.PreFilterOperationError := by
  refine ⟨?_, ?_, ?_, ?_⟩
  · intro conn
    exact handle_request_sent conn.io _ _ _
  · intro conn v rest h
    exact handle_request_result_some conn.io _ _ _ _ rest _ h rfl
  · intro conn e rest h
    exact handle_request_result_some conn.io _ _ _ _ rest _ h rfl
  · intro conn m rest h hm
    refine handle_request_result_none conn.io _ _ _ _ rest h ?_
    cases m <;> first | rfl | exact absurd rfl (hm _)

theorem validate_operation_spec (request : Payload) :
    StandardCommand (fun conn => conn.validate_operation request)
      (.ValidateOperation request) NodeMessage.ValidateOperationResponse
      ProtocolError.ValidateOperationError := by
  refine ⟨?_, ?_, ?_, ?_⟩
  · intro conn
    exact handle_request_sent conn.io _ _ _
  · intro conn v rest h
    exact handle_request_result_some conn.io _ _ _ _ rest _ h rfl
  · intro conn e rest h
    exact handle_request_result_some conn.io _ _ _ _ rest _ h rfl
  · intro conn m rest h hm
    refine handle_request_result_none conn.io _ _ _ _ rest h ?_
    cases m <;> first | rfl | exact absurd rfl (hm _)

theorem compute_path_spec (request : Payload) :
    StandardCommand (fun conn => conn.compute_path request)
      (.ComputePathCall request) NodeMessage.ComputePathResponse
      ProtocolError.ComputePathError := by
  refine ⟨?_, ?_, ?_, ?_⟩
  · intro conn
    exact handle_request_sent conn.io _ _ _
  · intro conn v rest h
    exact handle_request_result_some conn.io _ _ _ _ rest _ h rfl
  · intro conn e rest h
    exact handle_request_result_some conn.io _ _ _ _ rest _ h rfl
  · intro conn m rest h hm
    refine handle_request_result_none conn.io _ _ _ _ rest h ?_
    cases m <;> first | rfl | exact absurd rfl (hm _)

theorem apply_block_result_metadata_spec (context_hash metadata_bytes : Payload)
    (max_operations_ttl : Int) (protocol_hash next_protocol_hash : Payload) :
    StandardCommand
      (fun conn => conn.apply_block_result_metadata context_hash metadata_bytes
        max_operations_ttl protocol_hash next_protocol_hash)
      (.JsonEncodeApplyBlockResultMetadata
        ⟨context_hash, max_operations_ttl, metadata_bytes, protocol_hash, next_protocol_hash⟩)
      NodeMessage.JsonEncodeApplyBlockResultMetadataResponse
      (ProtocolError.FfiJsonEncoderError "apply_block_result_metadata") := by
  refine ⟨?_, ?_, ?_, ?_⟩
  · intro conn
    exact handle_request_sent conn.io _ _ _
  · intro conn v rest h
    exact handle_request_result_some conn.io _ _ _ _ rest _ h rfl
  · intro conn e rest h
    exact handle_request_result_some conn.io _ _ _ _ rest _ h rfl
  · intro conn m rest h hm
    refine handle_request_result_none conn.io _ _ _ _ rest h ?_
    cases m <;> first | rfl | exact absurd rfl (hm _)

theorem apply_block_operations_metadata_spec (chain_id : Payload)
    (operations operations_metadata_bytes : List (List Payload))
    (protocol_hash next_protocol_hash : Payload) :
    StandardCommand
      (fun conn => conn.apply_block_operations_metadata chain_id operations
        operations_metadata_bytes protocol_hash next_protocol_hash)
      (.JsonEncodeApplyBlockOperationsMetadata
        ⟨chain_id, operations, operations_metadata_bytes, protocol_hash, next_protocol_hash⟩)
      NodeMessage.JsonEncodeApplyBlockOperationsMetadata
      (ProtocolError.FfiJsonEncoderError "apply_block_operations_metadata") := by
  refine ⟨?_, ?_, ?_, ?_⟩
  · intro conn
    exact handle_request_sent conn.io _ _ _
  · intro conn v rest h
    exact handle_request_result_some conn.io _ _ _ _ rest _ h rfl
  · intro conn e rest h
    exact handle_request_result_some conn.io _ _ _ _ rest _ h rfl
  · intro conn m rest h hm
    refine handle_request_result_none conn.io _ _ _ _ rest h ?_
    cases m <;> first | rfl | exact absurd rfl (hm _)

theorem call_protocol_rpc_spec (request : ProtocolRpcRequest) :
    StandardCommand (fun conn => conn.call_protocol_rpc request)
      (.ProtocolRpcCall request) NodeMessage.RpcResponse
      (fun err => ProtocolError.ProtocolRpcError err request.request.context_path) := by
  refine ⟨?_, ?_, ?_, ?_⟩
  · intro conn
    exact handle_request_sent conn.io _ _ _
  · intro conn v rest h
    exact handle_request_result_some conn.io _ _ _ _ rest _ h rfl
  · intro conn e rest h
    exact handle_request_result_some conn.io _ _ _ _ rest _ h rfl
  · intro conn m rest h hm
    refine handle_request_result_none conn.io _ _ _ _ rest h ?_
    cases m <;> first | rfl | exact absurd rfl (hm _)

theorem helpers_preapply_operations_spec (request : ProtocolRpcRequest) :
    StandardCommand (fun conn => conn.helpers_preapply_operations request)
      (.HelpersPreapplyOperationsCall request) NodeMessage.HelpersPreapplyResponse
      ProtocolError.HelpersPreapplyError := by
  refine ⟨?_, ?_, ?_, ?_⟩
  · intro conn
    exact handle_request_sent conn.io _ _ _
  · intro conn v rest h
    exact handle_request_result_some conn.io _ _ _ _ rest _ h rfl
  · intro conn e rest h
    exact handle_request_result_some conn.io _ _ _ _ rest _ h rfl
  · intro conn m rest h hm
    refine handle_request_result_none conn.io _ _ _ _ rest h ?_
    cases m <;> first | rfl | exact absurd rfl (hm _)

theorem helpers_preapply_block_spec (request : Payload) :
    StandardCommand (fun conn => conn.helpers_preapply_block request)
      (.HelpersPreapplyBlockCall request) NodeMessage.HelpersPreapplyResponse
      ProtocolError.HelpersPreapplyError := by
  refine ⟨?_, ?_, ?_, ?_⟩
  · intro conn
    exact handle_request_sent conn.io _ _ _
  · intro conn v rest h
    exact handle_request_result_some conn.io _ _ _ _ rest _ h rfl
  · intro conn e rest h
    exact handle_request_result_some conn.io _ _ _ _ rest _ h rfl
  · intro conn m rest h hm
    refine handle_request_result_none conn.io _ _ _ _ rest h ?_
    cases m <;> first | rfl | exact absurd rfl (hm _)

theorem init_protocol_context_raw_spec (params : InitProtocolContextParams) :
    StandardCommand (fun conn => conn.init_protocol_context_raw params)
      (.InitProtocolContextCall params) NodeMessage.InitProtocolContextResult
      ProtocolError.OcamlStorageInitError := by
  refine ⟨?_, ?_, ?_, ?_⟩
  · intro conn
    exact handle_request_sent conn.io _ _ _
  · intro conn v rest h
    exact handle_request_result_some conn.io _ _ _ _ rest _ h rfl
  · intro conn e rest h
    exact handle_request_result_some conn.io _ _ _ _ rest _ h rfl
  · intro conn m rest h hm
    refine handle_request_result_none conn.io _ _ _ _ rest h ?_
    cases m <;> first | rfl | exact absurd rfl (hm _)

theorem genesis_result_data_raw_spec (params : GenesisResultDataParams) :
    StandardCommand (fun conn => conn.genesis_result_data_raw params)
      (.GenesisResultDataCall params) NodeMessage.CommitGenesisResultData
      ProtocolError.GenesisResultDataError := by
  refine ⟨?_, ?_, ?_, ?_⟩
  · intro conn
    exact handle_request_sent conn.io _ _ _
  · intro conn v rest h
    exact handle_request_result_some conn.io _ _ _ _ rest _ h rfl
  · intro conn e rest h
    exact handle_request_result_some conn.io _ _ _ _ rest _ h rfl
  · intro conn m rest h hm
    refine handle_request_result_none conn.io _ _ _ _ rest h ?_
    cases m <;> first | rfl | exact absurd rfl (hm _)

theorem get_context_key_from_history_spec (context_hash : Payload) (key : List String) :
    StandardCommand (fun conn => conn.get_context_key_from_history context_hash key)
      (.ContextGetKeyFromHistory ⟨context_hash, key⟩)
      NodeMessage.ContextGetKeyFromHistoryResult
      ProtocolError.ContextGetKeyFromHistoryError := by
  refine ⟨?_, ?_, ?_, ?_⟩
  · intro conn
    exact handle_request_sent conn.io _ _ _
  · intro conn v rest h
    exact handle_request_result_some conn.io _ _ _ _ rest _ h rfl
  · intro conn e rest h
    exact handle_request_result_some conn.io _ _ _ _ rest _ h rfl
  · intro conn m rest h hm
    refine handle_request_result_none conn.io _ _ _ _ rest h ?_
    cases m <;> first | rfl | exact absurd rfl (hm _)

theorem getContextKeyValuesByPrefix_spec (context_hash : Payload) (keyPrefix : List String) :
    StandardCommand (fun conn => conn.getContextKeyValuesByPrefix context_hash keyPrefix)
      (.ContextGetKeyValuesByPrefix ⟨context_hash, keyPrefix⟩)
      NodeMessage.ContextGetKeyValuesByPrefixResult
      ProtocolError.ContextGetKeyValuesByPrefixError := by
  refine ⟨?_, ?_, ?_, ?_⟩
  · intro conn
    exact handle_request_sent conn.io _ _ _
  · intro conn v rest h
    exact handle_request_result_some conn.io _ _ _ _ rest _ h rfl
  · intro conn e rest h
    exact handle_request_result_some conn.io _ _ _ _ rest _ h rfl
  · intro conn m rest h hm
    refine handle_request_result_none conn.io _ _ _ _ rest h ?_
    cases m <;> first | rfl | exact absurd rfl (hm _)

theorem getContextTreeByPrefix_spec (context_hash : Payload) (keyPrefix : List String)
    (depth : Option Nat) :
    StandardCommand (fun conn => conn.getContextTreeByPrefix context_hash keyPrefix depth)
      (.ContextGetTreeByPrefix ⟨context_hash, keyPrefix, depth⟩)
      NodeMessage.ContextGetTreeByPrefixResult
      ProtocolError.ContextGetKeyValuesByPrefixError := by
  refine ⟨?_, ?_, ?_, ?_⟩
  · intro conn
    exact handle_request_sent conn.io _ _ _
  · intro conn v rest h
    exact handle_request_result_some conn.io _ _ _ _ rest _ h rfl
  · intro conn e rest h
    exact handle_request_result_some conn.io _ _ _ _ rest _ h rfl
  · intro conn m rest h hm
    refine handle_request_result_none conn.io _ _ _ _ rest h ?_
    cases m <;> first | rfl | exact absurd rfl (hm _)

theorem dump_context_spec (context_hash : Payload) (dump_into_path : String) :
    StandardCommand (fun conn => conn.dump_context context_hash dump_into_path)
      (.DumpContext ⟨context_hash, dump_into_path⟩)
      NodeMessage.DumpContextResponse ProtocolError.DumpContextError := by
  refine ⟨?_, ?_, ?_, ?_⟩
  · intro conn
    exact handle_request_sent conn.io _ _ _
  · intro conn v rest h
    exact handle_request_result_some conn.io _ _ _ _ rest _ h rfl
  · intro conn e rest h
    exact handle_request_result_some conn.io _ _ _ _ rest _ h rfl
  · intro conn m rest h hm
    refine handle_request_result_none conn.io _ _ _ _ rest h ?_
    cases m <;> first | rfl | exact absurd rfl (hm _)

theorem restore_context_spec (expected_context_hash : Payload)
    (restore_from_path : String) (nb_context_elements : Int) :
    StandardCommand
      (fun conn => conn.restore_context expected_context_hash restore_from_path
        nb_context_elements)
      (.RestoreContext ⟨expected_context_hash, restore_from_path, nb_context_elements⟩)
      NodeMessage.RestoreContextResponse ProtocolError.RestoreContextError := by
  refine ⟨?_, ?_, ?_, ?_⟩
  · intro conn
    exact handle_request_sent conn.io _ _ _
  · intro conn v rest h
    exact handle_request_result_some conn.io _ _ _ _ rest _ h rfl
  · intro conn e rest h
    exact handle_request_result_some conn.io _ _ _ _ rest _ h rfl
  · intro conn m rest h hm
    refine handle_request_result_none conn.io _ _ _ _ rest h ?_
    cases m <;> first | rfl | exact absurd rfl (hm _)

theorem change_runtime_configuration_spec (settings : Payload) :
    UnitCommand (fun conn => conn.change_runtime_configuration settings)
      (.ChangeRuntimeConfigurationCall settings)
      NodeMessage.ChangeRuntimeConfigurationResult := by
  refine ⟨?_, ?_, ?_⟩
  · intro conn
    exact handle_request_sent conn.io _ _ _
  · intro conn rest h
    exact handle_request_result_some conn.io _ _ _ _ rest _ h rfl
  · intro conn m rest h hm
    refine handle_request_result_none conn.io _ _ _ _ rest h ?_
    cases m <;> first | rfl | exact absurd rfl hm

theorem ping_spec :
    UnitCommand (fun conn => conn.ping) .Ping NodeMessage.PingResult := by
  refine ⟨?_, ?_, ?_⟩
  · intro conn
    exact handle_request_sent conn.io _ _ _
  · intro conn rest h
    exact handle_request_result_some conn.io _ _ _ _ rest _ h rfl
  · intro conn m rest h hm
    refine handle_request_result_none conn.io _ _ _ _ rest h ?_
    cases m <;> first | rfl | exact absurd rfl hm

theorem shutdown_spec :
    UnitCommand (fun conn => conn.shutdown) .ShutdownCall NodeMessage.ShutdownResult := by
  refine ⟨?_, ?_, ?_⟩
  · intro conn
    exact handle_request_sent conn.io _ _ _
  · intro conn rest h
    exact handle_request_result_some conn.io _ _ _ _ rest _ h rfl
  · intro conn m rest h hm
    refine handle_request_result_none conn.io _ _ _ _ rest h ?_
    cases m <;> first | rfl | exact absurd rfl hm

theorem init_context_ipc_server_raw_spec (cfg : TezosContextStorageConfiguration) :
    IpcServerCommand (fun conn => conn.init_context_ipc_server_raw cfg)
      (.InitProtocolContextIpcServer cfg) := by
  refine ⟨?_, ?_, ?_, ?_⟩
  · intro conn
    exact handle_request_sent conn.io _ _ _
  · intro conn rest h
    exact handle_request_result_some conn.io _ _ _ _ rest _ h rfl
  · intro conn e rest h
    exact handle_request_result_some conn.io _ _ _ _ rest _ h rfl
  · intro conn m rest h hm
    refine handle_request_result_none conn.io _ _ _ _ rest h ?_
    cases m <;> first | rfl | exact absurd rfl (hm _)

/-- Concrete environment fixture for witness and counterexample theorems. -/
def env0 : TezosEnvironmentConfiguration :=
  { genesis := "genesis"
    protocol_overrides := "overrides"
    genesis_additional_data := .ok ⟨12⟩
    main_chain_id := .ok "chain-id"
    genesis_protocol := .ok "genesis-protocol" }

/-- Storage fixture with a readonly IPC socket path configured. -/
def storage0 : TezosContextStorageConfiguration := { ipc_socket_path := some "/tmp/context.sock" }

/-- Storage fixture with no readonly IPC socket path. -/
def storageNone : TezosContextStorageConfiguration := { ipc_socket_path := none }

/-- Configuration fixture (storage with an IPC socket path). -/
def cfg0 : ProtocolRunnerConfiguration :=
  { runtime_configuration := "runtime"
    environment := env0
    enable_testchain := false
    storage := storage0
    executable_path := "/bin/protocol-runner"
    log_level := .Info }

/-- Configuration fixture (storage without an IPC socket path). -/
def cfgNone : ProtocolRunnerConfiguration := { cfg0 with storage := storageNone }

/-- Connection fixture whose next scripted reply is an
InitProtocolContextIpcServerResult carrying Err "boom". -/
def connIpcErr : ProtocolRunnerConnection :=
  { configuration := cfg0
    io := { sent := []
            recvScript := [.ok (.InitProtocolContextIpcServerResult (.error "boom"))]
            timeouts := [] } }

/-- Discriminator telling whether a unit command result is a ProtocolError. -/
def resultIsProtocolError : Except ProtocolServiceError Unit → Bool
  | .error (.ProtocolError _) => true
  | _ => false

/-- C1 counterexample: the command method init_context_ipc_server_raw, on the
expected variant carrying Err "boom", does not return a ProtocolError with
the error kind of the table and that reason; it returns the service-level
ContextIpcServerError whose message embeds the reason behind a fixed prefix. -/
theorem c1_counterexample :
    (connIpcErr.init_context_ipc_server_raw storage0).1 =
      .error (.ContextIpcServerError "Failure when starting context IPC server: boom") ∧
    resultIsProtocolError (connIpcErr.init_context_ipc_server_raw storage0).1 = false := by
  constructor
  · decide
  · decide

/-- C1 (amended): every command method on ProtocolRunnerConnection sends the
request variant of its command and awaits one reply; when the reply is the
expected variant carrying Ok(value), the method returns value unchanged; when
the expected variant carries Err(reason), the method returns ProtocolError
with the error kind of the table and that reason, except
init_context_ipc_server_raw, which returns the service-level
ContextIpcServerError whose message is the reason behind the fixed prefix
"Failure when starting context IPC server: "; for the three commands whose
reply variant carries no payload, receiving that variant returns unit; when
the reply is any other variant, the method returns UnexpectedMessage
identifying the kind of the variant actually received. -/
theorem c1_command_response_matching :
    (∀ request, StandardCommand (fun conn => conn.apply_block request)
      (.ApplyBlockCall request) NodeMessage.ApplyBlockResult ProtocolError.ApplyBlockError) ∧
    (∀ count, StandardCommand (fun conn => conn.latest_context_hashes count)
      (.ContextGetLatestContextHashes count) NodeMessage.ContextGetLatestContextHashesResult
      ProtocolError.GetLastContextHashesError) ∧
    (∀ protocol_hash protocol_data, StandardCommand
      (fun conn => conn.assert_encoding_for_protocol_data protocol_hash protocol_data)
      (.AssertEncodingForProtocolDataCall protocol_hash protocol_data)
      NodeMessage.AssertEncodingForProtocolDataResult
      ProtocolError.AssertEncodingForProtocolDataError) ∧
    (∀ request, StandardCommand (fun conn => conn.begin_application request)
      (.BeginApplicationCall request) NodeMessage.BeginApplicationResult
      ProtocolError.BeginApplicationError) ∧
    (∀ request, StandardCommand (fun conn => conn.begin_construction request)
      (.BeginConstruction request) NodeMessage.BeginConstructionResult
      ProtocolError.BeginConstructionError) ∧
    (∀ request, StandardCommand (fun conn => conn.pre_filter_operation request)
      (.PreFilterOperation request) NodeMessage.PreFilterOperationResult
      ProtocolError.PreFilterOperationError) ∧
    (∀ request, StandardCommand (fun conn => conn.validate_operation request)
      (.ValidateOperation request) NodeMessage.ValidateOperationResponse
      ProtocolError.ValidateOperationError) ∧
    (∀ request, StandardCommand (fun conn => conn.compute_path request)
      (.ComputePathCall request) NodeMessage.ComputePathResponse
      ProtocolError.ComputePathError) ∧
    (∀ context_hash metadata_bytes max_operations_ttl protocol_hash next_protocol_hash,
      StandardCommand
        (fun conn => conn.apply_block_result_metadata context_hash metadata_bytes
          max_operations_ttl protocol_hash next_protocol_hash)
        (.JsonEncodeApplyBlockResultMetadata
          ⟨context_hash, max_operations_ttl, metadata_bytes, protocol_hash, next_protocol_hash⟩)
        NodeMessage.JsonEncodeApplyBlockResultMetadataResponse
        (ProtocolError.FfiJsonEncoderError "apply_block_result_metadata")) ∧
    (∀ chain_id operations operations_metadata_bytes protocol_hash next_protocol_hash,
      StandardCommand
        (fun conn => conn.apply_block_operations_metadata chain_id operations
          operations_metadata_bytes protocol_hash next_protocol_hash)
        (.JsonEncodeApplyBlockOperationsMetadata
          ⟨chain_id, operations, operations_metadata_bytes, protocol_hash, next_protocol_hash⟩)
        NodeMessage.JsonEncodeApplyBlockOperationsMetadata
        (ProtocolError.FfiJsonEncoderError "apply_block_operations_metadata")) ∧
    (∀ request, StandardCommand (fun conn => conn.call_protocol_rpc request)
      (.ProtocolRpcCall request) NodeMessage.RpcResponse
      (fun err => ProtocolError.ProtocolRpcError err request.request.context_path)) ∧
    (∀ request, StandardCommand (fun conn => conn.helpers_preapply_operations request)
      (.HelpersPreapplyOperationsCall request) NodeMessage.HelpersPreapplyResponse
      ProtocolError.HelpersPreapplyError) ∧
    (∀ request, StandardCommand (fun conn => conn.helpers_preapply_block request)
      (.HelpersPreapplyBlockCall request) NodeMessage.HelpersPreapplyResponse
      ProtocolError.HelpersPreapplyError) ∧
    (∀ params, StandardCommand (fun conn => conn.init_protocol_context_raw params)
      (.InitProtocolContextCall params) NodeMessage.InitProtocolContextResult
      ProtocolError.OcamlStorageInitError) ∧
    (∀ params, StandardCommand (fun conn => conn.genesis_result_data_raw params)
      (.GenesisResultDataCall params) NodeMessage.CommitGenesisResultData
      ProtocolError.GenesisResultDataError) ∧
    (∀ context_hash key, StandardCommand
      (fun conn => conn.get_context_key_from_history context_hash key)
      (.ContextGetKeyFromHistory ⟨context_hash, key⟩)
      NodeMessage.ContextGetKeyFromHistoryResult
      ProtocolError.ContextGetKeyFromHistoryError) ∧
    (∀ context_hash keyPrefix, StandardCommand
      (fun conn => conn.getContextKeyValuesByPrefix context_hash keyPrefix)
      (.ContextGetKeyValuesByPrefix ⟨context_hash, keyPrefix⟩)
      NodeMessage.ContextGetKeyValuesByPrefixResult
      ProtocolError.ContextGetKeyValuesByPrefixError) ∧
    (∀ context_hash keyPrefix depth, StandardCommand
      (fun conn => conn.getContextTreeByPrefix context_hash keyPrefix depth)
      (.ContextGetTreeByPrefix ⟨context_hash, keyPrefix, depth⟩)
      NodeMessage.ContextGetTreeByPrefixResult
      ProtocolError.ContextGetKeyValuesByPrefixError) ∧
    (∀ context_hash dump_into_path, StandardCommand
      (fun conn => conn.dump_context context_hash dump_into_path)
      (.DumpContext ⟨context_hash, dump_into_path⟩)
      NodeMessage.DumpContextResponse ProtocolError.DumpContextError) ∧
    (∀ expected_context_hash restore_from_path nb_context_elements, StandardCommand
      (fun conn => conn.restore_context expected_context_hash restore_from_path
        nb_context_elements)
      (.RestoreContext ⟨expected_context_hash, restore_from_path, nb_context_elements⟩)
      NodeMessage.RestoreContextResponse ProtocolError.RestoreContextError) ∧
    (∀ settings, UnitCommand (fun conn => conn.change_runtime_configuration settings)
      (.ChangeRuntimeConfigurationCall settings)
      NodeMessage.ChangeRuntimeConfigurationResult) ∧
    UnitCommand (fun conn => conn.ping) .Ping NodeMessage.PingResult ∧
    UnitCommand (fun conn => conn.shutdown) .ShutdownCall NodeMessage.ShutdownResult ∧
    (∀ cfg, IpcServerCommand (fun conn => conn.init_context_ipc_server_raw cfg)
      (.InitProtocolContextIpcServer cfg)) :=
  ⟨apply_block_spec, latest_context_hashes_spec, assert_encoding_for_protocol_data_spec,
    begin_application_spec, begin_construction_spec, pre_filter_operation_spec,
    validate_operation_spec, compute_path_spec, apply_block_result_metadata_spec,
    apply_block_operations_metadata_spec, call_protocol_rpc_spec,
    helpers_preapply_operations_spec, helpers_preapply_block_spec,
    init_protocol_context_raw_spec, genesis_result_data_raw_spec,
    get_context_key_from_history_spec, getContextKeyValuesByPrefix_spec,
    getContextTreeByPrefix_spec, dump_context_spec, restore_context_spec,
    change_runtime_configuration_spec, ping_spec, shutdown_spec,
    init_context_ipc_server_raw_spec⟩

/-- Connection fixture whose next scripted reply is an ApplyBlockResult
carrying Ok. -/
def connApplyOk : ProtocolRunnerConnection :=
  { configuration := cfg0
    io := { sent := []
            recvScript := [.ok (.ApplyBlockResult (.ok "block-applied"))]
            timeouts := [] } }

/-- C1 witness: the apply_block clause of the response-matching theorem,
applied at a concrete connection whose scripted reply is the expected variant
carrying Ok. -/
theorem c1_command_response_matching_witness :
    (connApplyOk.apply_block "req").1 = .ok "block-applied" :=
  (c1_command_response_matching.1 "req").2.1 connApplyOk "block-applied" [] rfl

/-- C4: every command method passes to the receive step exactly the timeout
the table assigns to its command, in seconds: ApplyBlockCall and
ContextGetLatestContextHashes 4 hours (14400 s); ProtocolRpcCall,
ContextGetKeyValuesByPrefix and ContextGetTreeByPrefix 30 minutes (1800 s);
the 2-minute commands 120 s; ChangeRuntimeConfigurationCall,
InitProtocolContextIpcServer, GenesisResultDataCall, ContextGetKeyFromHistory
and ShutdownCall 10 s; Ping 1 s; DumpContext and RestoreContext receive with
no deadline at all. -/
theorem c4_command_timeouts :
    (∀ (conn : ProtocolRunnerConnection) (request : Payload),
      (conn.apply_block request).2.io.timeouts = conn.io.timeouts ++ [some 14400]) ∧
    (∀ (conn : ProtocolRunnerConnection) (count : Int),
      (conn.latest_context_hashes count).2.io.timeouts = conn.io.timeouts ++ [some 14400]) ∧
    (∀ (conn : ProtocolRunnerConnection) (request : ProtocolRpcRequest),
      (conn.call_protocol_rpc request).2.io.timeouts = conn.io.timeouts ++ [some 1800]) ∧
    (∀ (conn : ProtocolRunnerConnection) context_hash keyPrefix,
      (conn.getContextKeyValuesByPrefix context_hash keyPrefix).2.io.timeouts =
        conn.io.timeouts ++ [some 1800]) ∧
    (∀ (conn : ProtocolRunnerConnection) context_hash keyPrefix depth,
      (conn.getContextTreeByPrefix context_hash keyPrefix depth).2.io.timeouts =
        conn.io.timeouts ++ [some 1800]) ∧
    (∀ (conn : ProtocolRunnerConnection) protocol_hash protocol_data,
      (conn.assert_encoding_for_protocol_data protocol_hash protocol_data).2.io.timeouts =
        conn.io.timeouts ++ [some 120]) ∧
    (∀ (conn : ProtocolRunnerConnection) (request : Payload),
      (conn.begin_application request).2.io.timeouts = conn.io.timeouts ++ [some 120]) ∧
    (∀ (conn : ProtocolRunnerConnection) (request : Payload),
      (conn.begin_construction request).2.io.timeouts = conn.io.timeouts ++ [some 120]) ∧
    (∀ (conn : ProtocolRunnerConnection) (request : Payload),
      (conn.pre_filter_operation request).2.io.timeouts = conn.io.timeouts ++ [some 120]) ∧
    (∀ (conn : ProtocolRunnerConnection) (request : Payload),
      (conn.validate_operation request).2.io.timeouts = conn.io.timeouts ++ [some 120]) ∧
    (∀ (conn : ProtocolRunnerConnection) (request : Payload),
      (conn.compute_path request).2.io.timeouts = conn.io.timeouts ++ [some 120]) ∧
    (∀ (conn : ProtocolRunnerConnection) context_hash metadata_bytes max_operations_ttl
        protocol_hash next_protocol_hash,
      (conn.apply_block_result_metadata context_hash metadata_bytes max_operations_ttl
        protocol_hash next_protocol_hash).2.io.timeouts = conn.io.timeouts ++ [some 120]) ∧
    (∀ (conn : ProtocolRunnerConnection) chain_id operations operations_metadata_bytes
        protocol_hash next_protocol_hash,
      (conn.apply_block_operations_metadata chain_id operations operations_metadata_bytes
        protocol_hash next_protocol_hash).2.io.timeouts = conn.io.timeouts ++ [some 120]) ∧
    (∀ (conn : ProtocolRunnerConnection) (request : ProtocolRpcRequest),
      (conn.helpers_preapply_operations request).2.io.timeouts =
        conn.io.timeouts ++ [some 120]) ∧
    (∀ (conn : ProtocolRunnerConnection) (request : Payload),
      (conn.helpers_preapply_block request).2.io.timeouts = conn.io.timeouts ++ [some 120]) ∧
    (∀ (conn : ProtocolRunnerConnection) params,
      (conn.init_protocol_context_raw params).2.io.timeouts =
        conn.io.timeouts ++ [some 120]) ∧
    (∀ (conn : ProtocolRunnerConnection) settings,
      (conn.change_runtime_configuration settings).2.io.timeouts =
        conn.io.timeouts ++ [some 10]) ∧
    (∀ (conn : ProtocolRunnerConnection) cfg,
      (conn.init_context_ipc_server_raw cfg).2.io.timeouts =
        conn.io.timeouts ++ [some 10]) ∧
    (∀ (conn : ProtocolRunnerConnection) params,
      (conn.genesis_result_data_raw params).2.io.timeouts =
        conn.io.timeouts ++ [some 10]) ∧
    (∀ (conn : ProtocolRunnerConnection) context_hash key,
      (conn.get_context_key_from_history context_hash key).2.io.timeouts =
        conn.io.timeouts ++ [some 10]) ∧
    (∀ (conn : ProtocolRunnerConnection),
      conn.shutdown.2.io.timeouts = conn.io.timeouts ++ [some 10]) ∧
    (∀ (conn : ProtocolRunnerConnection),
      conn.ping.2.io.timeouts = conn.io.timeouts ++ [some 1]) ∧
    (∀ (conn : ProtocolRunnerConnection) context_hash dump_into_path,
      (conn.dump_context context_hash dump_into_path).2.io.timeouts =
        conn.io.timeouts ++ [none]) ∧
    (∀ (conn : ProtocolRunnerConnection) expected_context_hash restore_from_path
        nb_context_elements,
      (conn.restore_context expected_context_hash restore_from_path
        nb_context_elements).2.io.timeouts = conn.io.timeouts ++ [none]) :=
  ⟨fun conn _ => handle_request_timeouts conn.io _ _ _,
    fun conn _ => handle_request_timeouts conn.io _ _ _,
    fun conn _ => handle_request_timeouts conn.io _ _ _,
    fun conn _ _ => handle_request_timeouts conn.io _ _ _,
    fun conn _ _ _ => handle_request_timeouts conn.io _ _ _,
    fun conn _ _ => handle_request_timeouts conn.io _ _ _,
    fun conn _ => handle_request_timeouts conn.io _ _ _,
    fun conn _ => handle_request_timeouts conn.io _ _ _,
    fun conn _ => handle_request_timeouts conn.io _ _ _,
    fun conn _ => handle_request_timeouts conn.io _ _ _,
    fun conn _ => handle_request_timeouts conn.io _ _ _,
    fun conn _ _ _ _ _ => handle_request_timeouts conn.io _ _ _,
    fun conn _ _ _ _ _ => handle_request_timeouts conn.io _ _ _,
    fun conn _ => handle_request_timeouts conn.io _ _ _,
    fun conn _ => handle_request_timeouts conn.io _ _ _,
    fun conn _ => handle_request_timeouts conn.io _ _ _,
    fun conn _ => handle_request_timeouts conn.io _ _ _,
    fun conn _ => handle_request_timeouts conn.io _ _ _,
    fun conn _ => handle_request_timeouts conn.io _ _ _,
    fun conn _ _ => handle_request_timeouts conn.io _ _ _,
    fun conn => handle_request_timeouts conn.io _ _ _,
    fun conn => handle_request_timeouts conn.io _ _ _,
    fun conn _ _ => handle_request_timeouts conn.io _ _ _,
    fun conn _ _ _ => handle_request_timeouts conn.io _ _ _⟩

/-- C5: handle_protocol_service_error returns Err carrying the unchanged
error and never invokes the log callback when the error is IpcError or
UnexpectedMessage; for every other variant it invokes the callback exactly
once with the error and returns Ok. -/
theorem c5_handle_protocol_service_error :
    (∀ reason, handle_protocol_service_error (.IpcError reason) =
      (.error (.IpcError reason), [])) ∧
    (∀ message, handle_protocol_service_error (.UnexpectedMessage message) =
      (.error (.UnexpectedMessage message), [])) ∧
    (∀ reason, handle_protocol_service_error (.ProtocolError reason) =
      (.ok (), [.ProtocolError reason])) ∧
    (∀ message, handle_protocol_service_error (.InvalidDataError message) =
      (.ok (), [.InvalidDataError message])) ∧
    (∀ message, handle_protocol_service_error (.LockPoisonError message) =
      (.ok (), [.LockPoisonError message])) ∧
    (∀ message, handle_protocol_service_error (.ContextIpcServerError message) =
      (.ok (), [.ContextIpcServerError message])) :=
  ⟨fun _ => rfl, fun _ => rfl, fun _ => rfl, fun _ => rfl, fun _ => rfl, fun _ => rfl⟩

/-- While the watch stays open and no true value is observed, the wait loop
stays suspended. -/
theorem wait_for_context_init_suspended :
    ∀ obs : List Bool, true ∉ obs → wait_for_context_init obs false = .suspended := by
  intro obs h
  induction obs with
  | nil => rfl
  | cons b rest ih =>
    simp only [List.mem_cons, not_or] at h
    obtain ⟨hb, hrest⟩ := h
    cases b with
    | true => exact absurd rfl hb
    | false =>
      simp only [wait_for_context_init, if_neg Bool.false_ne_true]
      exact ih hrest

/-- Once a true value is observed, the wait loop completes with Ok. -/
theorem wait_for_context_init_mem_true (closed : Bool) :
    ∀ obs : List Bool, true ∈ obs → wait_for_context_init obs closed = .ok := by
  intro obs h
  induction obs with
  | nil => cases h
  | cons b rest ih =>
    cases b with
    | true => rfl
    | false =>
      have hrest : true ∈ rest := by
        rcases List.mem_cons.mp h with h1 | h2
        · cases h1
        · exact h2
      simp only [wait_for_context_init, if_neg Bool.false_ne_true]
      exact ih hrest

/-- With the sender side dropped, the wait loop never stays suspended: it
either observes true or hits the RecvError path. -/
theorem wait_for_context_init_closed :
    ∀ obs : List Bool, wait_for_context_init obs true ≠ .suspended := by
  intro obs
  induction obs with
  | nil => simp [wait_for_context_init]
  | cons b rest ih =>
    cases b with
    | true => simp [wait_for_context_init]
    | false =>
      simp only [wait_for_context_init, if_neg Bool.false_ne_true]
      exact ih

/-- C2 counterexample: with the single observation false and the sender side
then dropped, readable_connection opens a transport (connect is reached) even
though the watch value was never observed true, because the RecvError of the
wait is discarded. -/
theorem c2_counterexample :
    readable_connection [false] true = true ∧ true ∉ [false] := by
  constructor
  · rfl
  · decide

/-- C2 (amended): readable_connection awaits the readiness watch before
calling connect: while the watch value stays false and the sender side is
alive, the call stays suspended and opens no transport; once a true value is
observed the pending call proceeds and connects; but because the result of
the wait is discarded, a call whose watch closes (sender dropped) while the
value is still false proceeds to connect anyway. -/
theorem c2_readable_connection_gating :
    (∀ obs : List Bool, true ∉ obs → readable_connection obs false = false) ∧
    (∀ (obs : List Bool) (closed : Bool), true ∈ obs →
      readable_connection obs closed = true) ∧
    (∀ obs : List Bool, readable_connection obs true = true) := by
  refine ⟨?_, ?_, ?_⟩
  · intro obs h
    unfold readable_connection
    rw [wait_for_context_init_suspended obs h]
  · intro obs closed h
    unfold readable_connection
    rw [wait_for_context_init_mem_true closed obs h]
  · intro obs
    unfold readable_connection
    cases hw : wait_for_context_init obs true with
    | ok => rfl
    | closedErr => rfl
    | suspended => exact absurd hw (wait_for_context_init_closed obs)

/-- C2 witness: the suspension clause of the gating theorem at a concrete
observation trace that never shows true while the watch stays open. -/
theorem c2_readable_connection_gating_witness :
    readable_connection [false] false = false :=
  c2_readable_connection_gating.1 [false] (by decide)

/-- When the socket never appears, the waiter loop terminates with
SocketTimeout at an elapsed time strictly beyond the deadline, provided the
fuel covers the deadline. -/
theorem wait_for_socket_loop_never (ex : Nat → Bool) (T : Nat)
    (hex : ∀ s, ex s = false) :
    ∀ fuel t : Nat, T < t + 100 * fuel →
      ∃ tf, wait_for_socket_loop ex T fuel t = some (.error .SocketTimeout, tf) ∧
        T < tf := by
  intro fuel
  induction fuel with
  | zero =>
    intro t ht
    have ht2 : T < t := by omega
    refine ⟨t, ?_, ht2⟩
    simp [wait_for_socket_loop, hex t, ht2]
  | succ f ih =>
    intro t ht
    by_cases hT : T < t
    · refine ⟨t, ?_, hT⟩
      simp [wait_for_socket_loop, hex t, hT]
    · obtain ⟨tf, heq, htf⟩ := ih (t + 100) (by omega)
      refine ⟨tf, ?_, htf⟩
      simpa [wait_for_socket_loop, hex t, hT] using heq

/-- C6: the socket waiter polls existence every 100 ms (each iteration of the
loop advances the elapsed time by exactly 100 ms); when the file exists at
the first check it returns Ok at elapsed time 0, without sleeping; when the
file never appears it returns SocketTimeout at an elapsed time strictly
greater than the deadline (so at least the deadline has elapsed); the
deadline defaults to 3000 ms when the caller passes no timeout. -/
theorem c6_wait_for_socket :
    (∀ (ex : Nat → Bool) (timeout : Option Nat) (fuel : Nat), ex 0 = true →
      wait_for_socket ex timeout fuel = some (.ok (), 0)) ∧
    (∀ (ex : Nat → Bool) (timeout : Option Nat) (fuel : Nat), (∀ s, ex s = false) →
      timeout.getD 3000 < 100 * fuel →
      ∃ tf, wait_for_socket ex timeout fuel = some (.error .SocketTimeout, tf) ∧
        timeout.getD 3000 < tf) ∧
    (∀ (ex : Nat → Bool) (fuel : Nat),
      wait_for_socket ex none fuel = wait_for_socket_loop ex 3000 fuel 0) := by
  refine ⟨?_, ?_, ?_⟩
  · intro ex timeout fuel h
    cases fuel <;> simp [wait_for_socket, wait_for_socket_loop, h]
  · intro ex timeout fuel hex hfuel
    exact wait_for_socket_loop_never ex (timeout.getD 3000) hex fuel 0 (by omega)
  · intro ex fuel
    rfl

/-- C6 witness: the waiter at a concrete filesystem where the socket is
already present (immediate Ok at time 0), and at one where it never appears
(SocketTimeout beyond the 250 ms deadline within 3 iterations). -/
theorem c6_wait_for_socket_witness :
    wait_for_socket (fun _ => true) none 0 = some (.ok (), 0) ∧
    ∃ tf, wait_for_socket (fun _ => false) (some 250) 3 =
      some (.error .SocketTimeout, tf) ∧ 250 < tf :=
  ⟨c6_wait_for_socket.1 (fun _ => true) none 0 rfl,
    c6_wait_for_socket.2.1 (fun _ => false) (some 250) 3 (fun _ => rfl) (by decide)⟩

/-- In an event trace, every spawnChild event is preceded by a removal of the
given path. -/
def removalPrecedesSpawn (evs : List RunnerEvent) (path : String) : Prop :=
  ∀ pre post exe args, evs = pre ++ RunnerEvent.spawnChild exe args :: post →
    RunnerEvent.removeFile path ∈ pre

/-- C7: whenever start is invoked, the very first action is the removal of
any existing file at the socket path, and every spawnChild event of the trace
is preceded by that removal: the child is never launched while a stale socket
file is still present. -/
theorem c7_socket_unlinked_before_spawn :
    ∀ (api : ProtocolRunnerApi) (spawnResult : Except String Child) (ex : Nat → Bool)
      (timeout : Option Nat) (fuel : Nat),
      (api.start spawnResult ex timeout fuel).2.head? =
        some (.removeFile api.socket_path) ∧
      removalPrecedesSpawn (api.start spawnResult ex timeout fuel).2 api.socket_path := by
  intro api spawnResult ex timeout fuel
  constructor
  · rfl
  · intro pre post exe args h
    have h2 : RunnerEvent.removeFile api.socket_path ::
        (spawn_process api.configuration.executable_path api.socket_path
          api.endpoint_name api.configuration.log_level spawnResult).2 =
        pre ++ RunnerEvent.spawnChild exe args :: post := h
    rcases pre with _ | ⟨a, pre⟩
    · rw [List.nil_append] at h2
      injection h2 with h3 h4
      exact RunnerEvent.noConfusion h3
    · rw [List.cons_append] at h2
      injection h2 with h3 h4
      rw [h3]
      exact List.mem_cons_self _ _

/-- Runner API fixture. -/
def api0 : ProtocolRunnerApi := ProtocolRunnerApi.new cfg0 "/tmp/runner.sock"

/-- C7 witness: the precedence clause applied at a concrete start invocation
whose trace decomposes around its spawnChild event. -/
theorem c7_socket_unlinked_before_spawn_witness :
    RunnerEvent.removeFile "/tmp/runner.sock" ∈
      [RunnerEvent.removeFile "/tmp/runner.sock"] :=
  (c7_socket_unlinked_before_spawn api0 (.ok ⟨7⟩) (fun _ => true) none 0).2
    [.removeFile "/tmp/runner.sock"] [] "/bin/protocol-runner"
    ["--socket-path", "/tmp/runner.sock", "--endpoint", "writable-protocol-runner",
      "--log-level", "info"] (by decide)

/-- C8: spawn_process launches the configured executable with exactly the
command line --socket-path [path] --endpoint [name] --log-level [token], in
that order, where the token is the lowercase rendering of the configured log
level and is always one of critical, error, warning, info, debug, trace. -/
theorem c8_spawn_process_command_line :
    ∀ (executable_path socket_path endpoint_name : String) (log_level : Level)
      (child : Child),
      spawn_process executable_path socket_path endpoint_name log_level (.ok child) =
        (.ok child,
          [.spawnChild executable_path
            ["--socket-path", socket_path, "--endpoint", endpoint_name,
              "--log-level", to_lowercase log_level.as_str]]) ∧
      to_lowercase log_level.as_str ∈
        ["critical", "error", "warning", "info", "debug", "trace"] := by
  intro executable_path socket_path endpoint_name log_level child
  refine ⟨rfl, ?_⟩
  cases log_level <;> decide

/-- C9: when the spawn succeeds but the socket waiter fails, start returns
SocketTimeout and the already spawned child handle is discarded: it is not
part of the result, and start emits no terminate or kill request. -/
theorem c9_start_waiter_failure_discards_child :
    ∀ (api : ProtocolRunnerApi) (child : Child) (ex : Nat → Bool)
      (timeout : Option Nat) (fuel : Nat),
      (∀ s, ex s = false) → timeout.getD 3000 < 100 * fuel →
      (api.start (.ok child) ex timeout fuel).1 = some (.error .SocketTimeout) ∧
      RunnerEvent.kill ∉ (api.start (.ok child) ex timeout fuel).2 := by
  intro api child ex timeout fuel hex hfuel
  obtain ⟨tf, hw, htf⟩ :=
    wait_for_socket_loop_never ex (timeout.getD 3000) hex fuel 0 (by omega)
  have hw2 : wait_for_socket ex timeout fuel = some (.error .SocketTimeout, tf) := hw
  constructor
  · simp [ProtocolRunnerApi.start, ProtocolRunnerApi.spawn, spawn_process, hw2]
  · simp [ProtocolRunnerApi.start, ProtocolRunnerApi.spawn, spawn_process]

/-- C9 witness: the waiter-failure clause at a concrete start invocation
whose filesystem never shows the socket. -/
theorem c9_start_waiter_failure_discards_child_witness :
    (api0.start (.ok ⟨7⟩) (fun _ => false) (some 100) 2).1 =
      some (.error .SocketTimeout) ∧
    RunnerEvent.kill ∉ (api0.start (.ok ⟨7⟩) (fun _ => false) (some 100) 2).2 :=
  c9_start_waiter_failure_discards_child api0 ⟨7⟩ (fun _ => false) (some 100) 2
    (fun _ => rfl) (by decide)

/-- C3: init_protocol_for_write first issues ChangeRuntimeConfigurationCall,
then InitProtocolContextCall with readonly false, and then issues
InitProtocolContextIpcServer if and only if the storage configuration
carries an IPC socket path; when no IPC socket path is configured, exactly
the first two messages are sent and the method still succeeds. -/
theorem c3_init_protocol_for_write_sequence :
    ∀ (conn : ProtocolRunnerConnection) (commit_genesis : Bool)
      (patch_context : Option Payload) (context_stats_db_path : Option String)
      (gad : GenesisAdditionalData) (r : Payload)
      (rest : List (Except IpcError NodeMessage)),
      conn.configuration.environment.genesis_additional_data = .ok gad →
      ((conn.configuration.storage.get_ipc_socket_path.isSome = true →
        conn.io.recvScript =
          .ok .ChangeRuntimeConfigurationResult ::
            .ok (.InitProtocolContextResult (.ok r)) ::
              .ok (.InitProtocolContextIpcServerResult (.ok ())) :: rest →
        (conn.init_protocol_for_write commit_genesis patch_context
          context_stats_db_path).1 = .ok r ∧
        (conn.init_protocol_for_write commit_genesis patch_context
          context_stats_db_path).2.io.sent =
          conn.io.sent ++
            [.ChangeRuntimeConfigurationCall conn.configuration.runtime_configuration,
              .InitProtocolContextCall
                { storage := conn.configuration.storage
                  genesis := conn.configuration.environment.genesis
                  genesis_max_operations_ttl := gad.max_operations_ttl
                  protocol_overrides := conn.configuration.environment.protocol_overrides
                  commit_genesis
                  enable_testchain := conn.configuration.enable_testchain
                  readonly := false
                  patch_context
                  context_stats_db_path },
              .InitProtocolContextIpcServer conn.configuration.storage]) ∧
       (conn.configuration.storage.get_ipc_socket_path.isSome = false →
        conn.io.recvScript =
          .ok .ChangeRuntimeConfigurationResult ::
            .ok (.InitProtocolContextResult (.ok r)) :: rest →
        (conn.init_protocol_for_write commit_genesis patch_context
          context_stats_db_path).1 = .ok r ∧
        (conn.init_protocol_for_write commit_genesis patch_context
          context_stats_db_path).2.io.sent =
          conn.io.sent ++
            [.ChangeRuntimeConfigurationCall conn.configuration.runtime_configuration,
              .InitProtocolContextCall
                { storage := conn.configuration.storage
                  genesis := conn.configuration.environment.genesis
                  genesis_max_operations_ttl := gad.max_operations_ttl
                  protocol_overrides := conn.configuration.environment.protocol_overrides
                  commit_genesis
                  enable_testchain := conn.configuration.enable_testchain
                  readonly := false
                  patch_context
                  context_stats_db_path }])) := by
  intro conn commit_genesis patch_context context_stats_db_path gad r rest hgad
  rcases conn with ⟨cfg, ⟨sent, scr, tos⟩⟩
  simp only at hgad
  constructor
  · intro hpath hscr
    simp only at hscr
    subst hscr
    constructor <;>
      simp [ProtocolRunnerConnection.init_protocol_for_write,
        ProtocolRunnerConnection.change_runtime_configuration,
        ProtocolRunnerConnection.init_protocol_context,
        ProtocolRunnerConnection.init_protocol_context_raw,
        ProtocolRunnerConnection.init_context_ipc_server,
        ProtocolRunnerConnection.init_context_ipc_server_raw,
        handle_request, IpcIo.send, IpcIo.tryReceive, mapProtocolError, hgad, hpath]
  · intro hpath hscr
    simp only at hscr
    subst hscr
    constructor <;>
      simp [ProtocolRunnerConnection.init_protocol_for_write,
        ProtocolRunnerConnection.change_runtime_configuration,
        ProtocolRunnerConnection.init_protocol_context,
        ProtocolRunnerConnection.init_protocol_context_raw,
        ProtocolRunnerConnection.init_context_ipc_server,
        ProtocolRunnerConnection.init_context_ipc_server_raw,
        handle_request, IpcIo.send, IpcIo.tryReceive, mapProtocolError, hgad, hpath]

/-- Connection fixture for the write-initialization sequence: the three
scripted replies of the happy path. -/
def connW : ProtocolRunnerConnection :=
  { configuration := cfg0
    io := { sent := []
            recvScript := [.ok .ChangeRuntimeConfigurationResult,
              .ok (.InitProtocolContextResult (.ok "ctx-ok")),
              .ok (.InitProtocolContextIpcServerResult (.ok ()))]
            timeouts := [] } }

/-- C3 witness: the with-IPC-socket clause of the sequencing theorem at a
concrete connection whose storage carries an IPC socket path. -/
theorem c3_init_protocol_for_write_sequence_witness :
    (connW.init_protocol_for_write true none none).1 = .ok "ctx-ok" ∧
    (connW.init_protocol_for_write true none none).2.io.sent =
      [] ++ [ProtocolMessage.ChangeRuntimeConfigurationCall "runtime",
        .InitProtocolContextCall
          { storage := storage0
            genesis := "genesis"
            genesis_max_operations_ttl := 12
            protocol_overrides := "overrides"
            commit_genesis := true
            enable_testchain := false
            readonly := false
            patch_context := none
            context_stats_db_path := none },
        .InitProtocolContextIpcServer storage0] :=
  (c3_init_protocol_for_write_sequence connW true none none ⟨12⟩ "ctx-ok" [] rfl).1 rfl rfl

/-- The composite init_protocol_context leaves the configuration unchanged. -/
theorem init_protocol_context_configuration (conn : ProtocolRunnerConnection)
    (storage : TezosContextStorageConfiguration)
    (tezos_environment : TezosEnvironmentConfiguration)
    (commit_genesis enable_testchain readonly : Bool)
    (patch_context : Option Payload) (context_stats_db_path : Option String) :
    (conn.init_protocol_context storage tezos_environment commit_genesis
      enable_testchain readonly patch_context context_stats_db_path).2.configuration =
      conn.configuration := by
  unfold ProtocolRunnerConnection.init_protocol_context
  split
  · rfl
  · rfl

/-- init_context_ipc_server leaves the configuration unchanged. -/
theorem init_context_ipc_server_configuration (conn : ProtocolRunnerConnection) :
    conn.init_context_ipc_server.2.configuration = conn.configuration := by
  unfold ProtocolRunnerConnection.init_context_ipc_server
  split
  · rfl
  · rfl

/-- init_protocol_for_write leaves the configuration unchanged. -/
theorem init_protocol_for_write_configuration (conn : ProtocolRunnerConnection)
    (commit_genesis : Bool) (patch_context : Option Payload)
    (context_stats_db_path : Option String) :
    (conn.init_protocol_for_write commit_genesis patch_context
      context_stats_db_path).2.configuration = conn.configuration := by
  unfold ProtocolRunnerConnection.init_protocol_for_write
  rcases h1 : conn.change_runtime_configuration conn.configuration.runtime_configuration
    with ⟨r1, s1⟩
  have e1 : s1.configuration = conn.configuration :=
    (congrArg (fun q => q.2.configuration) h1).symm
  rcases r1 with er1 | u1
  · exact e1
  · dsimp only
    rcases h2 : s1.init_protocol_context s1.configuration.storage
        s1.configuration.environment commit_genesis s1.configuration.enable_testchain
        false patch_context context_stats_db_path with ⟨r2, s2⟩
    have e2 : s2.configuration = s1.configuration := by
      have h2c := congrArg (fun q => q.2.configuration) h2
      dsimp only at h2c
      rw [init_protocol_context_configuration] at h2c
      exact h2c.symm
    rcases r2 with er2 | res
    · exact e2.trans e1
    · dsimp only
      rcases h3 : s2.init_context_ipc_server with ⟨r3, s3⟩
      have e3 : s3.configuration = s2.configuration := by
        have h3c := congrArg (fun q => q.2.configuration) h3
        dsimp only at h3c
        rw [init_context_ipc_server_configuration] at h3c
        exact h3c.symm
      rcases r3 with er3 | u3
      · exact e3.trans (e2.trans e1)
      · exact e3.trans (e2.trans e1)

/-- init_protocol_for_read leaves the configuration unchanged. -/
theorem init_protocol_for_read_configuration (conn : ProtocolRunnerConnection) :
    conn.init_protocol_for_read.2.configuration = conn.configuration := by
  unfold ProtocolRunnerConnection.init_protocol_for_read
  rcases h1 : conn.change_runtime_configuration conn.configuration.runtime_configuration
    with ⟨r1, s1⟩
  have e1 : s1.configuration = conn.configuration :=
    (congrArg (fun q => q.2.configuration) h1).symm
  rcases r1 with er1 | u1
  · exact e1
  · dsimp only
    rw [init_protocol_context_configuration]
    exact e1

/-- genesis_result_data leaves the configuration unchanged. -/
theorem genesis_result_data_configuration (conn : ProtocolRunnerConnection)
    (genesis_context_hash : Payload) :
    (conn.genesis_result_data genesis_context_hash).2.configuration =
      conn.configuration := by
  simp only [ProtocolRunnerConnection.genesis_result_data]
  split
  · rfl
  · split
    · rfl
    · split
      · rfl
      · rfl

/-- C10: every public command method on ProtocolRunnerConnection leaves the
connection configuration unchanged: after any call, including the composite
operations that read the configuration, the configuration equals the
configuration before the call; only the io field is mutated. -/
theorem c10_configuration_unchanged :
    (∀ (conn : ProtocolRunnerConnection) (request : Payload),
      (conn.apply_block request).2.configuration = conn.configuration) ∧
    (∀ (conn : ProtocolRunnerConnection) (count : Int),
      (conn.latest_context_hashes count).2.configuration = conn.configuration) ∧
    (∀ (conn : ProtocolRunnerConnection) protocol_hash protocol_data,
      (conn.assert_encoding_for_protocol_data protocol_hash
        protocol_data).2.configuration = conn.configuration) ∧
    (∀ (conn : ProtocolRunnerConnection) (request : Payload),
      (conn.begin_application request).2.configuration = conn.configuration) ∧
    (∀ (conn : ProtocolRunnerConnection) (request : Payload),
      (conn.begin_construction request).2.configuration = conn.configuration) ∧
    (∀ (conn : ProtocolRunnerConnection) (request : Payload),
      (conn.pre_filter_operation request).2.configuration = conn.configuration) ∧
    (∀ (conn : ProtocolRunnerConnection) (request : Payload),
      (conn.validate_operation request).2.configuration = conn.configuration) ∧
    (∀ (conn : ProtocolRunnerConnection) (request : Payload),
      (conn.compute_path request).2.configuration = conn.configuration) ∧
    (∀ (conn : ProtocolRunnerConnection) context_hash metadata_bytes max_operations_ttl
        protocol_hash next_protocol_hash,
      (conn.apply_block_result_metadata context_hash metadata_bytes max_operations_ttl
        protocol_hash next_protocol_hash).2.configuration = conn.configuration) ∧
    (∀ (conn : ProtocolRunnerConnection) chain_id operations operations_metadata_bytes
        protocol_hash next_protocol_hash,
      (conn.apply_block_operations_metadata chain_id operations
        operations_metadata_bytes protocol_hash
        next_protocol_hash).2.configuration = conn.configuration) ∧
    (∀ (conn : ProtocolRunnerConnection) (request : ProtocolRpcRequest),
      (conn.call_protocol_rpc request).2.configuration = conn.configuration) ∧
    (∀ (conn : ProtocolRunnerConnection) (request : ProtocolRpcRequest),
      (conn.helpers_preapply_operations request).2.configuration =
        conn.configuration) ∧
    (∀ (conn : ProtocolRunnerConnection) (request : Payload),
      (conn.helpers_preapply_block request).2.configuration = conn.configuration) ∧
    (∀ (conn : ProtocolRunnerConnection) settings,
      (conn.change_runtime_configuration settings).2.configuration =
        conn.configuration) ∧
    (∀ (conn : ProtocolRunnerConnection) params,
      (conn.init_protocol_context_raw params).2.configuration = conn.configuration) ∧
    (∀ (conn : ProtocolRunnerConnection),
      conn.ping.2.configuration = conn.configuration) ∧
    (∀ (conn : ProtocolRunnerConnection),
      conn.shutdown.2.configuration = conn.configuration) ∧
    (∀ (conn : ProtocolRunnerConnection) commit_genesis patch_context
        context_stats_db_path,
      (conn.init_protocol_for_write commit_genesis patch_context
        context_stats_db_path).2.configuration = conn.configuration) ∧
    (∀ (conn : ProtocolRunnerConnection),
      conn.init_protocol_for_read.2.configuration = conn.configuration) ∧
    (∀ (conn : ProtocolRunnerConnection),
      conn.init_context_ipc_server.2.configuration = conn.configuration) ∧
    (∀ (conn : ProtocolRunnerConnection) cfg,
      (conn.init_context_ipc_server_raw cfg).2.configuration = conn.configuration) ∧
    (∀ (conn : ProtocolRunnerConnection) genesis_context_hash,
      (conn.genesis_result_data genesis_context_hash).2.configuration =
        conn.configuration) ∧
    (∀ (conn : ProtocolRunnerConnection) params,
      (conn.genesis_result_data_raw params).2.configuration = conn.configuration) ∧
    (∀ (conn : ProtocolRunnerConnection) context_hash key,
      (conn.get_context_key_from_history context_hash key).2.configuration =
        conn.configuration) ∧
    (∀ (conn : ProtocolRunnerConnection) context_hash keyPrefix,
      (conn.getContextKeyValuesByPrefix context_hash keyPrefix).2.configuration =
        conn.configuration) ∧
    (∀ (conn : ProtocolRunnerConnection) context_hash keyPrefix depth,
      (conn.getContextTreeByPrefix context_hash keyPrefix depth).2.configuration =
        conn.configuration) ∧
    (∀ (conn : ProtocolRunnerConnection) context_hash dump_into_path,
      (conn.dump_context context_hash dump_into_path).2.configuration =
        conn.configuration) ∧
    (∀ (conn : ProtocolRunnerConnection) expected_context_hash restore_from_path
        nb_context_elements,
      (conn.restore_context expected_context_hash restore_from_path
        nb_context_elements).2.configuration = conn.configuration) :=
  ⟨fun _ _ => rfl, fun _ _ => rfl, fun _ _ _ => rfl, fun _ _ => rfl, fun _ _ => rfl,
    fun _ _ => rfl, fun _ _ => rfl, fun _ _ => rfl, fun _ _ _ _ _ _ => rfl,
    fun _ _ _ _ _ _ => rfl, fun _ _ => rfl, fun _ _ => rfl, fun _ _ => rfl,
    fun _ _ => rfl, fun _ _ => rfl, fun _ => rfl, fun _ => rfl,
    fun conn cg pc sp => init_protocol_for_write_configuration conn cg pc sp,
    fun conn => init_protocol_for_read_configuration conn,
    fun conn => init_context_ipc_server_configuration conn,
    fun _ _ => rfl,
    fun conn gch => genesis_result_data_configuration conn gch,
    fun _ _ => rfl, fun _ _ _ => rfl, fun _ _ _ => rfl, fun _ _ _ _ => rfl,
    fun _ _ _ => rfl, fun _ _ _ _ => rfl⟩
